import Mathlib

/-!
Verification development for the f12mqtt ingest-and-replay pipeline.

The definitions below shallowly embed the TypeScript sources:
state snapshot types and topic parsers (src/signalr/parsers.ts, types.ts),
the event detectors (src/events/&ast;.ts), the live pipeline
(src/signalr/pipeline.ts), the timeline and playback controller
(src/playback/timeline.ts, controller.ts), the session recorder
(src/recording/recorder.ts, storage.ts) and the AWTRIX payload builders and
MQTT publisher (src/mqtt/awtrix.ts, publisher.ts).

Modelling conventions: JavaScript objects keyed by driver-number strings are
association lists in insertion order; optional fields are Option; numeric
strings that the source feeds through parseInt are carried as the parsed
integers; numeric weather strings that the source feeds through parseFloat
are carried as their source text (no claim depends on the numeric value);
ISO-8601 timestamp comparison (localeCompare and the < operator in the
source) is lexicographic String order, which agrees with it on fixed-width
UTC timestamps.
-/

/-- Track flag values (TrackFlag in src/data/types.ts). -/
inductive TrackFlag
  | green | yellow | sc | vsc | vscEnding | red | chequered
  deriving DecidableEq, Repr

/-- Track status record: flag plus optional message. -/
structure TrackStatus where
  flag : TrackFlag
  message : Option String
  deriving DecidableEq, Repr

/-- Session type enumeration. -/
inductive SessionType
  | race | qualifying | practice | sprint | sprintQualifying
  deriving DecidableEq, Repr

/-- Session info record. -/
structure SessionInfo where
  name : String
  type : SessionType
  circuit : String
  country : String
  startTime : String
  endTime : Option String
  deriving DecidableEq, Repr

/-- Lap counter. -/
structure LapCount where
  current : Nat
  total : Nat
  deriving DecidableEq, Repr

/-- Weather record. Numeric fields hold the parseFloat source text. -/
structure WeatherData where
  airTemp : String
  trackTemp : String
  humidity : String
  rainfall : Bool
  windSpeed : String
  windDirection : String
  pressure : String
  deriving DecidableEq, Repr

/-- Per-driver identity record. -/
structure DriverInfo where
  driverNumber : String
  abbreviation : String
  firstName : String
  lastName : String
  teamName : String
  teamColor : String
  countryCode : String
  deriving DecidableEq, Repr

/-- Per-driver timing row. -/
structure DriverTiming where
  driverNumber : String
  position : Int
  gapToLeader : String
  interval : String
  lastLapTime : String
  bestLapTime : String
  sector1 : String
  sector2 : String
  sector3 : String
  inPit : Bool
  retired : Bool
  stopped : Bool
  deriving DecidableEq, Repr

/-- Per-driver stint record. -/
structure DriverStint where
  driverNumber : String
  stintNumber : Nat
  compound : String
  tyreAge : Nat
  new : Bool
  deriving DecidableEq, Repr

/-- Pit lane time record. -/
structure PitLaneTime where
  driverNumber : String
  duration : String
  lap : String
  deriving DecidableEq, Repr

/-- Top-three entry. -/
structure TopThreeEntry where
  position : Nat
  driverNumber : String
  abbreviation : String
  teamColor : String
  lapTime : String
  gapToLeader : String
  deriving DecidableEq, Repr

/-- Race control message record. -/
structure RaceControlMessage where
  utc : String
  message : String
  category : String
  flag : Option String
  scope : Option String
  sector : Option Nat
  racingNumber : Option String
  deriving DecidableEq, Repr

/-- Association list keyed by driver-number strings, modelling a JS object in
insertion order. -/
abbrev JMap (α : Type) := List (String × α)

/-- Lookup by key (first match, as in a JS object where keys are unique). -/
def JMap.lookupA {α : Type} (m : JMap α) (k : String) : Option α :=
  (m.find? (fun p => p.1 = k)).map Prod.snd

/-- Replace the value at a key in place, or append a fresh binding: the JS
semantics of obj[k] = v. -/
def JMap.upsert {α : Type} (m : JMap α) (k : String) (v : α) : JMap α :=
  if m.any (fun p => p.1 = k) then
    m.map (fun p => if p.1 = k then (k, v) else p)
  else m ++ [(k, v)]

/-- Session snapshot (SessionState in src/data/types.ts). -/
structure SessionState where
  sessionInfo : Option SessionInfo
  trackStatus : TrackStatus
  lapCount : LapCount
  weather : Option WeatherData
  drivers : JMap DriverInfo
  timing : JMap DriverTiming
  stints : JMap DriverStint
  pitLaneTimes : JMap PitLaneTime
  topThree : List TopThreeEntry
  latestRaceControlMessage : Option RaceControlMessage
  timestamp : String
  deriving DecidableEq, Repr

/-- Modelled from the spec: createEmptySessionState of src/data/types.ts is
not under src/; defaults follow spec section 3.1 and the unit tests (green
flag, zero lap count, empty maps). -/
def createEmptySessionState : SessionState where
  sessionInfo := none
  trackStatus := { flag := TrackFlag.green, message := none }
  lapCount := { current := 0, total := 0 }
  weather := none
  drivers := []
  timing := []
  stints := []
  pitLaneTimes := []
  topThree := []
  latestRaceControlMessage := none
  timestamp := ""

/-! Raw wire types (src/signalr/types.ts). Optional string fields that the
source converts with parseInt are carried as the parsed integers. -/

/-- Raw TrackStatus payload. -/
structure RawTrackStatus where
  Status : Option String
  Message : Option String
  deriving DecidableEq, Repr

/-- Raw DriverList entry. -/
structure RawDriverEntry where
  RacingNumber : Option String
  Tla : Option String
  FirstName : Option String
  LastName : Option String
  TeamName : Option String
  TeamColour : Option String
  CountryCode : Option String
  deriving DecidableEq, Repr

/-- Raw TimingData line for a driver. -/
structure RawTimingEntry where
  Position : Option Int
  GapToLeader : Option String
  IntervalValue : Option String
  LastLapValue : Option String
  BestLapValue : Option String
  Sectors : List (String × Option String)
  InPit : Option Bool
  Retired : Option Bool
  Stopped : Option Bool
  deriving DecidableEq, Repr

/-- Raw TimingData payload. -/
structure RawTimingData where
  Lines : Option (JMap RawTimingEntry)
  deriving DecidableEq, Repr

/-- Raw stint inside TimingAppData. -/
structure RawStint where
  Compound : Option String
  New : Option String
  TotalLaps : Option Nat
  deriving DecidableEq, Repr

/-- Raw TimingAppData line: stints keyed by stint number. -/
structure RawTimingAppEntry where
  Stints : Option (List (Nat × RawStint))
  deriving DecidableEq, Repr

/-- Raw TimingAppData payload. -/
structure RawTimingAppData where
  Lines : Option (JMap RawTimingAppEntry)
  deriving DecidableEq, Repr

/-- Raw SessionInfo payload. -/
structure RawSessionInfo where
  MeetingName : Option String
  MeetingCircuitShortName : Option String
  MeetingCountryName : Option String
  Name : Option String
  Type_ : Option String
  StartDate : Option String
  EndDate : Option String
  deriving DecidableEq, Repr

/-- Raw LapCount payload. -/
structure RawLapCount where
  CurrentLap : Option Nat
  TotalLaps : Option Nat
  deriving DecidableEq, Repr

/-- Raw WeatherData payload: source strings. -/
structure RawWeatherData where
  AirTemp : Option String
  TrackTemp : Option String
  Humidity : Option String
  Rainfall : Option String
  WindSpeed : Option String
  WindDirection : Option String
  Pressure : Option String
  deriving DecidableEq, Repr

/-- Raw pit lane time entry. -/
structure RawPitLaneTimeEntry where
  RacingNumber : Option String
  Duration : Option String
  Lap : Option String
  deriving DecidableEq, Repr

/-- Raw PitLaneTimeCollection payload. -/
structure RawPitLaneTimeCollection where
  PitTimes : Option (JMap RawPitLaneTimeEntry)
  deriving DecidableEq, Repr

/-- Raw TopThree line. -/
structure RawTopThreeEntry where
  Position : Option Nat
  RacingNumber : Option String
  Tla : Option String
  TeamColour : Option String
  LapTime : Option String
  DiffToLeader : Option String
  deriving DecidableEq, Repr

/-- Raw TopThree payload. -/
structure RawTopThree where
  Lines : Option (List RawTopThreeEntry)
  Withheld : Option Bool
  deriving DecidableEq, Repr

/-- Raw race control message entry. -/
structure RawRaceControlEntry where
  Utc : Option String
  Message : Option String
  Category : Option String
  Flag : Option String
  Scope : Option String
  Sector : Option Nat
  RacingNumber : Option String
  deriving DecidableEq, Repr

/-- Raw RaceControlMessages payload: messages keyed by numeric index. -/
structure RawRaceControlMessages where
  Messages : Option (List (Nat × RawRaceControlEntry))
  deriving DecidableEq, Repr

/-- Union of raw per-topic payload shapes carried by a message. -/
inductive RawData
  | trackStatus (raw : RawTrackStatus)
  | driverList (raw : JMap RawDriverEntry)
  | timingData (raw : RawTimingData)
  | timingAppData (raw : RawTimingAppData)
  | sessionInfo (raw : RawSessionInfo)
  | lapCount (raw : RawLapCount)
  | weatherData (raw : RawWeatherData)
  | pitLaneTimeCollection (raw : RawPitLaneTimeCollection)
  | topThree (raw : RawTopThree)
  | raceControlMessages (raw : RawRaceControlMessages)
  | other
  deriving DecidableEq, Repr

/-- One message: SignalRMessage of src/signalr/client.ts and, with fields
reordered, TimelineEntry of src/playback/data-source.ts. -/
structure Msg where
  timestamp : String
  topic : String
  data : RawData
  deriving DecidableEq, Repr

/-! Constants (src/util/constants.ts, src/util/team-colors.ts). -/

/-- Mapped flag names: FLAG_NAMES of src/util/constants.ts. No code maps to
the chequered flag. -/
def FLAG_NAMES (code : String) : Option TrackFlag :=
  if code = "1" then some TrackFlag.green
  else if code = "2" then some TrackFlag.yellow
  else if code = "4" then some TrackFlag.sc
  else if code = "5" then some TrackFlag.red
  else if code = "6" then some TrackFlag.vsc
  else if code = "7" then some TrackFlag.vscEnding
  else none

/-- Season team colour table: TEAM_COLORS of src/util/team-colors.ts. -/
def TEAM_COLORS (teamName : String) : Option String :=
  if teamName = "Red Bull Racing" then some "4781D7"
  else if teamName = "McLaren" then some "F47600"
  else if teamName = "Ferrari" then some "ED1131"
  else if teamName = "Mercedes" then some "00D7B6"
  else if teamName = "Aston Martin" then some "229971"
  else if teamName = "Alpine" then some "00A1E8"
  else if teamName = "Williams" then some "1868DB"
  else if teamName = "Racing Bulls" then some "6C98FF"
  else if teamName = "Audi" then some "F50537"
  else if teamName = "Haas F1 Team" then some "9C9FA2"
  else if teamName = "Cadillac" then some "909090"
  else none

/-- Fallback colour if the team is not found. -/
def DEFAULT_TEAM_COLOR : String := "FFFFFF"

/-- getTeamColor of src/util/team-colors.ts. -/
def getTeamColor (teamName : String) : String :=
  (TEAM_COLORS teamName).getD DEFAULT_TEAM_COLOR

/-! Partial records produced by the parsers (Partial of the canonical types
in the source): a field is some v exactly when the diff mentions it. -/

/-- Partial driver identity produced by parseDriverList. -/
structure DriverInfoPartial where
  driverNumber : Option String := none
  abbreviation : Option String := none
  firstName : Option String := none
  lastName : Option String := none
  teamName : Option String := none
  teamColor : Option String := none
  countryCode : Option String := none
  deriving DecidableEq, Repr

/-- Partial timing row produced by parseTimingData. -/
structure DriverTimingPartial where
  driverNumber : Option String := none
  position : Option Int := none
  gapToLeader : Option String := none
  interval : Option String := none
  lastLapTime : Option String := none
  bestLapTime : Option String := none
  sector1 : Option String := none
  sector2 : Option String := none
  sector3 : Option String := none
  inPit : Option Bool := none
  retired : Option Bool := none
  stopped : Option Bool := none
  deriving DecidableEq, Repr

/-- Partial weather record produced by parseWeatherData. -/
structure WeatherDataPartial where
  airTemp : Option String := none
  trackTemp : Option String := none
  humidity : Option String := none
  rainfall : Option Bool := none
  windSpeed : Option String := none
  windDirection : Option String := none
  pressure : Option String := none
  deriving DecidableEq, Repr

/-! Topic parsers (src/signalr/parsers.ts). -/

/-- parseTrackStatus: null unless the status code is recognised. -/
def parseTrackStatus (raw : RawTrackStatus) : Option TrackStatus :=
  match raw.Status with
  | none => none
  | some code =>
    match FLAG_NAMES code with
    | none => none
    | some flag => some { flag := flag, message := raw.Message }

/-- One entry of parseDriverList: skip entries lacking both racing number and
abbreviation; fill teamColor from the season table when only TeamName is
present. -/
def parseDriverEntry (num : String) (entry : RawDriverEntry) :
    Option (String × DriverInfoPartial) :=
  if entry.RacingNumber = none ∧ entry.Tla = none then none
  else
    let driverNumber := entry.RacingNumber.getD num
    some (driverNumber,
      { driverNumber := some driverNumber
        abbreviation := entry.Tla
        firstName := entry.FirstName
        lastName := entry.LastName
        teamName := entry.TeamName
        teamColor :=
          match entry.TeamColour with
          | some c => some c
          | none =>
            match entry.TeamName with
            | some tn => some (getTeamColor tn)
            | none => none
        countryCode := entry.CountryCode })

/-- parseDriverList over all entries. -/
def parseDriverList (raw : JMap RawDriverEntry) : JMap DriverInfoPartial :=
  raw.filterMap (fun p => parseDriverEntry p.1 p.2)

/-- One line of parseTimingData, including the sector split. -/
def parseTimingEntry (num : String) (entry : RawTimingEntry) :
    DriverTimingPartial :=
  let base : DriverTimingPartial :=
    { driverNumber := some num
      position := entry.Position
      gapToLeader := entry.GapToLeader
      interval := entry.IntervalValue
      lastLapTime := entry.LastLapValue
      bestLapTime := entry.BestLapValue
      inPit := entry.InPit
      retired := entry.Retired
      stopped := entry.Stopped }
  entry.Sectors.foldl
    (fun acc p =>
      match p.2 with
      | none => acc
      | some v =>
        if p.1 = "0" then { acc with sector1 := some v }
        else if p.1 = "1" then { acc with sector2 := some v }
        else if p.1 = "2" then { acc with sector3 := some v }
        else acc)
    base

/-- parseTimingData over all lines. -/
def parseTimingData (raw : RawTimingData) : JMap DriverTimingPartial :=
  match raw.Lines with
  | none => []
  | some lines => lines.map (fun p => (p.1, parseTimingEntry p.1 p.2))

/-- parseTimingAppData: for each driver keep the stint with the highest key. -/
def parseTimingAppData (raw : RawTimingAppData) : JMap DriverStint :=
  match raw.Lines with
  | none => []
  | some lines =>
    lines.filterMap (fun p =>
      match p.2.Stints with
      | none => none
      | some stints =>
        match (stints.map Prod.fst).max? with
        | none => none
        | some latestKey =>
          match (stints.find? (fun q => q.1 = latestKey)).map Prod.snd with
          | none => none
          | some stint =>
            some (p.1,
              { driverNumber := p.1
                stintNumber := latestKey
                compound := stint.Compound.getD "UNKNOWN"
                tyreAge := stint.TotalLaps.getD 0
                new := stint.New = some "true" }))

/-- SESSION_TYPE_MAP plus the Practice fallback. -/
def SESSION_TYPE_MAP (rawType : String) : SessionType :=
  if rawType = "Race" then SessionType.race
  else if rawType = "Qualifying" then SessionType.qualifying
  else if rawType = "Practice" then SessionType.practice
  else if rawType = "Sprint" then SessionType.sprint
  else if rawType = "Sprint Qualifying" then SessionType.sprintQualifying
  else if rawType = "Sprint Shootout" then SessionType.sprintQualifying
  else SessionType.practice

/-- parseSessionInfo: null without a meeting name. -/
def parseSessionInfo (raw : RawSessionInfo) : Option SessionInfo :=
  match raw.MeetingName with
  | none => none
  | some name =>
    let rawType := (raw.Name.orElse (fun _ => raw.Type_)).getD "Practice"
    some
      { name := name
        type := SESSION_TYPE_MAP rawType
        circuit := raw.MeetingCircuitShortName.getD ""
        country := raw.MeetingCountryName.getD ""
        startTime := raw.StartDate.getD ""
        endTime := raw.EndDate }

/-- parseLapCount: null when both sides are absent, otherwise default 0. -/
def parseLapCount (raw : RawLapCount) : Option LapCount :=
  if raw.CurrentLap = none ∧ raw.TotalLaps = none then none
  else some { current := raw.CurrentLap.getD 0, total := raw.TotalLaps.getD 0 }

/-- parseWeatherData: present fields only, Rainfall coerced to a boolean. -/
def parseWeatherData (raw : RawWeatherData) : WeatherDataPartial where
  airTemp := raw.AirTemp
  trackTemp := raw.TrackTemp
  humidity := raw.Humidity
  rainfall := raw.Rainfall.map (fun r => r = "1")
  windSpeed := raw.WindSpeed
  windDirection := raw.WindDirection
  pressure := raw.Pressure

/-- parsePitLaneTimeCollection: entries lacking a duration are skipped. -/
def parsePitLaneTimeCollection (raw : RawPitLaneTimeCollection) :
    JMap PitLaneTime :=
  match raw.PitTimes with
  | none => []
  | some pitTimes =>
    pitTimes.filterMap (fun p =>
      let driverNumber := p.2.RacingNumber.getD p.1
      match p.2.Duration with
      | none => none
      | some d =>
        some (driverNumber,
          { driverNumber := driverNumber, duration := d
            lap := p.2.Lap.getD "" }))

/-- Stable insertion of one element: together with ssort this models
Array.prototype.sort, which is a stable sort by the comparator. -/
def ssortInsert {α : Type} (le : α → α → Bool) (x : α) : List α → List α
  | [] => [x]
  | y :: ys => if le x y then x :: y :: ys else y :: ssortInsert le x ys

/-- Stable sort by a comparator (insertion sort, extensionally the stable
sort that Array.prototype.sort performs). -/
def ssort {α : Type} (le : α → α → Bool) : List α → List α
  | [] => []
  | x :: xs => ssortInsert le x (ssort le xs)

/-- parseTopThree: withheld or absent lines clear; entries need a racing
number and an abbreviation; the result is sorted ascending by position. -/
def parseTopThree (raw : RawTopThree) : List TopThreeEntry :=
  if raw.Withheld = some true ∨ raw.Lines = none then []
  else
    ssort (fun a b => a.position ≤ b.position)
      ((raw.Lines.getD []).filterMap (fun entry =>
        match entry.RacingNumber, entry.Tla with
        | some rn, some tla =>
          some
            { position := entry.Position.getD 0
              driverNumber := rn
              abbreviation := tla
              teamColor := entry.TeamColour.getD "FFFFFF"
              lapTime := entry.LapTime.getD ""
              gapToLeader := entry.DiffToLeader.getD "" }
        | _, _ => none))

/-- parseRaceControlMessages: pick the highest-keyed entry; null when it has
no message. -/
def parseRaceControlMessages (raw : RawRaceControlMessages) :
    Option RaceControlMessage :=
  match raw.Messages with
  | none => none
  | some msgs =>
    match (msgs.map Prod.fst).max? with
    | none => none
    | some latestKey =>
      match (msgs.find? (fun q => q.1 = latestKey)).map Prod.snd with
      | none => none
      | some entry =>
        match entry.Message with
        | none => none
        | some message =>
          some
            { utc := entry.Utc.getD ""
              message := message
              category := entry.Category.getD ""
              flag := entry.Flag
              scope := entry.Scope
              sector := entry.Sector
              racingNumber := entry.RacingNumber }

/-! State accumulator. Modelled from the spec: src/data/state-accumulator.ts
is not under src/ (only its parsers, tests and callers are); the merge rules
follow spec section 4.1 and the unit tests in
test/unit/state-accumulator.test.ts. -/

/-- Modelled from the spec: default driver record for a first partial update
(fields not yet sent are empty strings). -/
def defaultDriverInfo (num : String) : DriverInfo where
  driverNumber := num
  abbreviation := ""
  firstName := ""
  lastName := ""
  teamName := ""
  teamColor := ""
  countryCode := ""

/-- Modelled from the spec: default timing row for a first partial update. -/
def defaultDriverTiming (num : String) : DriverTiming where
  driverNumber := num
  position := 0
  gapToLeader := ""
  interval := ""
  lastLapTime := ""
  bestLapTime := ""
  sector1 := ""
  sector2 := ""
  sector3 := ""
  inPit := false
  retired := false
  stopped := false

/-- Modelled from the spec: default weather record before any field is sent. -/
def defaultWeatherData : WeatherData where
  airTemp := ""
  trackTemp := ""
  humidity := ""
  rainfall := false
  windSpeed := ""
  windDirection := ""
  pressure := ""

/-- Modelled from the spec: shallow-merge of non-absent driver fields. -/
def mergeDriverInfo (base : DriverInfo) (p : DriverInfoPartial) : DriverInfo where
  driverNumber := p.driverNumber.getD base.driverNumber
  abbreviation := p.abbreviation.getD base.abbreviation
  firstName := p.firstName.getD base.firstName
  lastName := p.lastName.getD base.lastName
  teamName := p.teamName.getD base.teamName
  teamColor := p.teamColor.getD base.teamColor
  countryCode := p.countryCode.getD base.countryCode

/-- Modelled from the spec: shallow-merge of non-absent timing fields. -/
def mergeDriverTiming (base : DriverTiming) (p : DriverTimingPartial) :
    DriverTiming where
  driverNumber := p.driverNumber.getD base.driverNumber
  position := p.position.getD base.position
  gapToLeader := p.gapToLeader.getD base.gapToLeader
  interval := p.interval.getD base.interval
  lastLapTime := p.lastLapTime.getD base.lastLapTime
  bestLapTime := p.bestLapTime.getD base.bestLapTime
  sector1 := p.sector1.getD base.sector1
  sector2 := p.sector2.getD base.sector2
  sector3 := p.sector3.getD base.sector3
  inPit := p.inPit.getD base.inPit
  retired := p.retired.getD base.retired
  stopped := p.stopped.getD base.stopped

/-- Modelled from the spec: shallow-merge of non-absent weather fields. -/
def mergeWeatherData (base : WeatherData) (p : WeatherDataPartial) :
    WeatherData where
  airTemp := p.airTemp.getD base.airTemp
  trackTemp := p.trackTemp.getD base.trackTemp
  humidity := p.humidity.getD base.humidity
  rainfall := p.rainfall.getD base.rainfall
  windSpeed := p.windSpeed.getD base.windSpeed
  windDirection := p.windDirection.getD base.windDirection
  pressure := p.pressure.getD base.pressure

/-- Fold a keyed list of partial updates into a keyed map: each key merges
into the existing record, or into a default record on first sight. -/
def mergeKeyed {β π : Type} (defaultFor : String → β) (mergeOne : β → π → β)
    (m : JMap β) (ps : List (String × π)) : JMap β :=
  ps.foldl
    (fun acc p =>
      acc.upsert p.1 (mergeOne ((acc.lookupA p.1).getD (defaultFor p.1)) p.2))
    m

/-- Modelled from the spec: StateAccumulator.applyMessage. Per-topic merge
rules of spec section 4.1: TrackStatus replaces iff recognised; DriverList
and TimingData shallow-merge per driver; TimingAppData replaces the stint
entry; SessionInfo and LapCount replace when parseable; WeatherData shallow-
merges; PitLaneTimeCollection merges per driver; TopThree replaces (or
clears); RaceControlMessages replaces when a message is present; anything
else only updates the timestamp. -/
def applyMessage (s : SessionState) (topic : String) (d : RawData)
    (ts : Option String) : SessionState :=
  let s := match ts with
    | some t => { s with timestamp := t }
    | none => s
  match d with
  | RawData.trackStatus raw =>
    if topic = "TrackStatus" then
      match parseTrackStatus raw with
      | some status => { s with trackStatus := status }
      | none => s
    else s
  | RawData.driverList raw =>
    if topic = "DriverList" then
      { s with drivers :=
          (mergeKeyed defaultDriverInfo mergeDriverInfo s.drivers
            (parseDriverList raw)) }
    else s
  | RawData.timingData raw =>
    if topic = "TimingData" then
      { s with timing :=
          (mergeKeyed defaultDriverTiming mergeDriverTiming s.timing
            (parseTimingData raw)) }
    else s
  | RawData.timingAppData raw =>
    if topic = "TimingAppData" then
      { s with stints :=
          ((parseTimingAppData raw).foldl (fun acc p => acc.upsert p.1 p.2)
            s.stints) }
    else s
  | RawData.sessionInfo raw =>
    if topic = "SessionInfo" then
      match parseSessionInfo raw with
      | some info => { s with sessionInfo := some info }
      | none => s
    else s
  | RawData.lapCount raw =>
    if topic = "LapCount" then
      match parseLapCount raw with
      | some lc => { s with lapCount := lc }
      | none => s
    else s
  | RawData.weatherData raw =>
    if topic = "WeatherData" then
      { s with weather :=
          (some (mergeWeatherData (s.weather.getD defaultWeatherData)
            (parseWeatherData raw))) }
    else s
  | RawData.pitLaneTimeCollection raw =>
    if topic = "PitLaneTimeCollection" then
      { s with pitLaneTimes :=
          ((parsePitLaneTimeCollection raw).foldl
            (fun acc p => acc.upsert p.1 p.2) s.pitLaneTimes) }
    else s
  | RawData.topThree raw =>
    if topic = "TopThree" then { s with topThree := parseTopThree raw }
    else s
  | RawData.raceControlMessages raw =>
    if topic = "RaceControlMessages" then
      match parseRaceControlMessages raw with
      | some rcm => { s with latestRaceControlMessage := some rcm }
      | none => s
    else s
  | RawData.other => s

/-! Event detectors (src/events/flag-detector.ts, overtake-detector.ts,
pit-detector.ts, weather-detector.ts, detector.ts). -/

/-- Detected event union (src/events/types.ts). -/
inductive F1Event
  | flagChange (timestamp : String) (previousFlag newFlag : TrackFlag)
      (message : Option String)
  | overtake (timestamp : String)
      (overtakingDriver overtakingAbbreviation overtakingTeamColor : String)
      (overtakenDriver overtakenAbbreviation overtakenTeamColor : String)
      (newPosition : Int)
  | pitStop (timestamp : String)
      (driverNumber abbreviation teamColor newCompound : String)
      (stintNumber : Nat)
  | weatherChange (timestamp : String) (previousRainfall newRainfall : Bool)
  deriving DecidableEq, Repr

/-- detectFlagChange: one event iff the flag differs. -/
def detectFlagChange (prev curr : SessionState) : List F1Event :=
  if prev.trackStatus.flag = curr.trackStatus.flag then []
  else
    [F1Event.flagChange curr.timestamp prev.trackStatus.flag
      curr.trackStatus.flag curr.trackStatus.message]

/-- Flags under which position changes are not real overtakes. -/
def NON_OVERTAKE_FLAGS : List TrackFlag :=
  [TrackFlag.sc, TrackFlag.vsc, TrackFlag.vscEnding, TrackFlag.red]

/-- detectOvertakes of src/events/overtake-detector.ts: for each driver whose
position strictly decreased and who is not in pit, find every other driver
passed by them subject to the pit/retired filters. -/
def detectOvertakes (prev curr : SessionState) : List F1Event :=
  if NON_OVERTAKE_FLAGS.contains curr.trackStatus.flag then []
  else
    curr.timing.flatMap (fun dp =>
      match prev.timing.lookupA dp.1 with
      | none => []
      | some prevTiming =>
        if dp.2.position ≥ prevTiming.position then []
        else if dp.2.inPit then []
        else
          curr.timing.flatMap (fun op =>
            if op.1 = dp.1 then []
            else
              match prev.timing.lookupA op.1 with
              | none => []
              | some otherPrevTiming =>
                if otherPrevTiming.position < prevTiming.position ∧
                    op.2.position > dp.2.position ∧
                    otherPrevTiming.position ≥ dp.2.position then
                  if op.2.inPit ∨ otherPrevTiming.inPit then []
                  else if op.2.retired then []
                  else
                    let overtaker := curr.drivers.lookupA dp.1
                    let overtaken := curr.drivers.lookupA op.1
                    [F1Event.overtake curr.timestamp dp.1
                      ((overtaker.map DriverInfo.abbreviation).getD dp.1)
                      ((overtaker.map DriverInfo.teamColor).getD "FFFFFF")
                      op.1
                      ((overtaken.map DriverInfo.abbreviation).getD op.1)
                      ((overtaken.map DriverInfo.teamColor).getD "FFFFFF")
                      dp.2.position]
                else []))

/-- detectPitStops: stint-number increment, or first sight with a nonzero
stint number. -/
def detectPitStops (prev curr : SessionState) : List F1Event :=
  curr.stints.flatMap (fun sp =>
    let keep :=
      match prev.stints.lookupA sp.1 with
      | some prevStint => decide (prevStint.stintNumber < sp.2.stintNumber)
      | none => ! decide (sp.2.stintNumber = 0)
    if keep then
      let driver := curr.drivers.lookupA sp.1
      [F1Event.pitStop curr.timestamp sp.1
        ((driver.map DriverInfo.abbreviation).getD sp.1)
        ((driver.map DriverInfo.teamColor).getD "FFFFFF")
        sp.2.compound sp.2.stintNumber]
    else [])

/-- detectWeatherChange: rainfall toggles, with absent previous weather read
as dry; no event while current weather is absent. -/
def detectWeatherChange (prev curr : SessionState) : List F1Event :=
  let prevRainfall := (prev.weather.map WeatherData.rainfall).getD false
  match curr.weather.map WeatherData.rainfall with
  | none => []
  | some currRainfall =>
    if prevRainfall = currRainfall then []
    else [F1Event.weatherChange curr.timestamp prevRainfall currRainfall]

/-- detectEvents: all detectors in fixed order. -/
def detectEvents (prev curr : SessionState) : List F1Event :=
  detectFlagChange prev curr ++ detectOvertakes prev curr ++
    detectPitStops prev curr ++ detectWeatherChange prev curr

/-! Playback state and observer emissions (src/playback/controller.ts,
src/signalr/pipeline.ts). -/

/-- Playback status. -/
inductive PStatus
  | playing | paused | stopped
  deriving DecidableEq, Repr

/-- Playback mode. -/
inductive PMode
  | live | recorded | openf1
  deriving DecidableEq, Repr

/-- PlaybackState snapshot returned by getPlaybackState. -/
structure PlaybackState where
  mode : PMode
  status : PStatus
  speed : Rat
  currentTime : String
  startTime : String
  endTime : String
  currentIndex : Nat
  totalEntries : Nat
  deriving DecidableEq, Repr

/-- Observer emission: the named events that the pipeline and the playback
controller emit, in emission order. -/
inductive Emission
  | event (e : F1Event)
  | updateMsg (state : SessionState) (events : List F1Event) (raw : Msg)
  | updateEntry (state : SessionState) (events : List F1Event) (entry : Msg)
      (playbackState : PlaybackState)
  | loaded (playbackState : PlaybackState)
  | stateChange (playbackState : PlaybackState)
  | seekEmit (state : SessionState) (playbackState : PlaybackState)
  | finished
  deriving DecidableEq, Repr

/-- True for the per-event observer notifications. -/
def Emission.isEvent : Emission → Bool
  | Emission.event _ => true
  | _ => false

/-- True for the aggregate update notifications of either origin. -/
def Emission.isUpdate : Emission → Bool
  | Emission.updateMsg _ _ _ => true
  | Emission.updateEntry _ _ _ _ => true
  | _ => false

/-- Events carried by the per-event notifications of a trace. -/
def emittedEvents (tr : List Emission) : List F1Event :=
  tr.filterMap (fun em =>
    match em with
    | Emission.event e => some e
    | _ => none)

/-! Live pipeline (src/signalr/pipeline.ts). The accumulator is the state;
snapshot() is the value itself under value semantics. -/

/-- SignalRPipeline.processMessage: snapshot, apply, detect, then emit one
notification per event followed by the aggregate update. -/
def SignalRPipeline.processMessage (acc : SessionState) (m : Msg) :
    SessionState × List Emission :=
  let prevState := acc
  let currState := applyMessage acc m.topic m.data (some m.timestamp)
  let events := detectEvents prevState currState
  (currState, events.map Emission.event ++
    [Emission.updateMsg currState events m])

/-- Sequential processing of a message list through one live pipeline. -/
def SignalRPipeline.run (acc : SessionState) :
    List Msg → SessionState × List Emission
  | [] => (acc, [])
  | m :: rest =>
    let step := SignalRPipeline.processMessage acc m
    let tail := SignalRPipeline.run step.1 rest
    (tail.1, step.2 ++ tail.2)

/-! Timeline (src/playback/timeline.ts). -/

/-- Lexicographic code-point comparison of character lists: the JavaScript
string < operator (code-unit order, which agrees with code-point order on
the ASCII timestamps compared here). -/
def chListLt : List Char → List Char → Bool
  | [], [] => false
  | [], _ :: _ => true
  | _ :: _, [] => false
  | a :: as, b :: bs =>
    if a.toNat < b.toNat then true
    else if b.toNat < a.toNat then false
    else chListLt as bs

/-- JavaScript string <. -/
def jsStrLt (a b : String) : Bool := chListLt a.data b.data

/-- JavaScript string <=, as used by the sort comparator. -/
def jsStrLe (a b : String) : Bool := ! jsStrLt b a

/-- Timeline: entry vector sorted by timestamp at construction. -/
structure Timeline where
  entries : List Msg
  deriving DecidableEq, Repr

/-- Timeline constructor: stable sort by timestamp (the source sorts a copy
with localeCompare). -/
def Timeline.ofEntries (es : List Msg) : Timeline :=
  { entries := ssort (fun a b => jsStrLe a.timestamp b.timestamp) es }

/-- Timeline.getEntry. -/
def Timeline.getEntry (t : Timeline) (i : Nat) : Option Msg :=
  t.entries.get? i

/-- Binary-search loop of Timeline.findIndex, iterated structurally on a
budget: each iteration shrinks hi - lo by at least one, so a budget of the
initial hi - lo runs the loop to completion. -/
def bsearchAux (es : List Msg) (t : String) : Nat → Nat → Nat → Nat
  | 0, lo, _ => lo
  | fuel + 1, lo, hi =>
    if lo < hi then
      match es.get? ((lo + hi) / 2) with
      | some e =>
        if jsStrLt e.timestamp t then
          bsearchAux es t fuel ((lo + hi) / 2 + 1) hi
        else bsearchAux es t fuel lo ((lo + hi) / 2)
      | none => lo
    else lo

/-- Timeline.findIndex: index of the first entry at or after the timestamp;
length when all entries are before it. -/
def Timeline.findIndex (t : Timeline) (timestamp : String) : Nat :=
  bsearchAux t.entries timestamp t.entries.length 0 t.entries.length

/-- Timeline.getTimeRange. -/
def Timeline.getTimeRange (t : Timeline) : Option (String × String) :=
  match t.entries with
  | [] => none
  | e :: rest =>
    some (e.timestamp, ((e :: rest).getLast (by simp)).timestamp)

/-! Playback controller (src/playback/controller.ts). The single pending
setTimeout is modelled by the timerArmed flag; a fired or cancelled timer is
disarmed before any further action. -/

/-- Controller state: the private fields of PlaybackController. -/
structure Controller where
  timeline : Option Timeline
  initialState : Option SessionState
  acc : SessionState
  currentIndex : Nat
  status : PStatus
  speed : Rat
  mode : PMode
  timerArmed : Bool
  deriving DecidableEq, Repr

/-- Freshly constructed controller. -/
def Controller.init : Controller where
  timeline := none
  initialState := none
  acc := createEmptySessionState
  currentIndex := 0
  status := PStatus.stopped
  speed := 1
  mode := PMode.recorded
  timerArmed := false

/-- getCurrentTime: timestamp of the entry at min(currentIndex, length - 1),
or the empty string. -/
def Controller.getCurrentTime (c : Controller) : String :=
  match c.timeline with
  | none => ""
  | some tl =>
    match tl.getEntry (min c.currentIndex (tl.entries.length - 1)) with
    | some e => e.timestamp
    | none => ""

/-- getPlaybackState. -/
def Controller.getPlaybackState (c : Controller) : PlaybackState where
  mode := c.mode
  status := c.status
  speed := c.speed
  currentTime := c.getCurrentTime
  startTime := ((c.timeline.bind Timeline.getTimeRange).map Prod.fst).getD ""
  endTime := ((c.timeline.bind Timeline.getTimeRange).map Prod.snd).getD ""
  currentIndex := c.currentIndex
  totalEntries := (c.timeline.map (fun tl => tl.entries.length)).getD 0

/-- processEntry: snapshot, apply, detect, then emit the aggregate update
followed by one notification per event. Returns the new accumulator state. -/
def Controller.processEntry (c : Controller) (entry : Msg) :
    SessionState × List Emission :=
  let prevState := c.acc
  let currState := applyMessage c.acc entry.topic entry.data
    (some entry.timestamp)
  let events := detectEvents prevState currState
  (currState,
    Emission.updateEntry currState events entry c.getPlaybackState ::
      events.map Emission.event)

/-- Loop of scheduleNext, structurally recursive on a recursion budget. The
tail call in the source happens only when the incremented index has reached
the end of the timeline; that next iteration finalises without calling
again, so the recursion depth is at most one and a budget of 2 runs the
source function to completion from every state. -/
def scheduleNextAux : Nat → Controller → Controller × List Emission
  | 0, c => (c, [])
  | fuel + 1, c =>
    match c.timeline with
    | none =>
      let c1 := { c with status := PStatus.stopped }
      (c1, [Emission.finished, Emission.stateChange c1.getPlaybackState])
    | some tl =>
      if c.status ≠ PStatus.playing ∨ tl.entries.length ≤ c.currentIndex
      then
        if tl.entries.length ≤ c.currentIndex then
          let c1 := { c with status := PStatus.stopped }
          (c1, [Emission.finished, Emission.stateChange c1.getPlaybackState])
        else (c, [])
      else
        match tl.entries.get? c.currentIndex with
        | none => (c, [])
        | some entry =>
          let step := c.processEntry entry
          let c2 :=
            { c with acc := step.1, currentIndex := c.currentIndex + 1 }
          if c2.currentIndex < tl.entries.length then
            ({ c2 with timerArmed := true }, step.2)
          else
            let tail := scheduleNextAux fuel c2
            (tail.1, step.2 ++ tail.2)

/-- scheduleNext: finish when not playing or past the end, otherwise process
the current entry, then arm the timer for the next entry or tail-call to
finalise. -/
def Controller.scheduleNext (c : Controller) : Controller × List Emission :=
  scheduleNextAux 2 c

/-- play: no-op without a non-empty timeline or when already playing. -/
def Controller.play (c : Controller) : Controller × List Emission :=
  match c.timeline with
  | none => (c, [])
  | some tl =>
    if tl.entries.length = 0 then (c, [])
    else if c.status = PStatus.playing then (c, [])
    else
      let c1 := { c with status := PStatus.playing }
      let tail := c1.scheduleNext
      (tail.1, Emission.stateChange c1.getPlaybackState :: tail.2)

/-- pause: cancel the pending timer. -/
def Controller.pause (c : Controller) : Controller × List Emission :=
  let c1 := { c with status := PStatus.paused, timerArmed := false }
  (c1, [Emission.stateChange c1.getPlaybackState])

/-- stop: pause plus rewind to index 0. -/
def Controller.stop (c : Controller) : Controller × List Emission :=
  let c1 :=
    { c with
        status := PStatus.stopped
        timerArmed := false
        currentIndex := 0 }
  (c1, [Emission.stateChange c1.getPlaybackState])

/-- setSpeed: store the multiplier verbatim; when playing with a pending
timer, cancel it and reschedule immediately; emit stateChange last. -/
def Controller.setSpeed (c : Controller) (speed : Rat) :
    Controller × List Emission :=
  let c1 := { c with speed := speed }
  if c1.status = PStatus.playing ∧ c1.timerArmed then
    let tail := Controller.scheduleNext { c1 with timerArmed := false }
    (tail.1, tail.2 ++ [Emission.stateChange tail.1.getPlaybackState])
  else (c1, [Emission.stateChange c1.getPlaybackState])

/-- load: stop current playback, install the timeline and a deep copy of the
initial state, emit loaded. -/
def Controller.load (c : Controller) (tl : Timeline)
    (initialState : Option SessionState) (mode : PMode) :
    Controller × List Emission :=
  let stopStep := c.stop
  let c1 :=
    { stopStep.1 with
        timeline := some tl
        initialState := initialState
        mode := mode
        currentIndex := 0
        acc := initialState.getD createEmptySessionState }
  (c1, stopStep.2 ++ [Emission.loaded c1.getPlaybackState])

/-- seek: pause if playing, rebuild the accumulator from a fresh copy of the
initial state by applying all entries before the target index, emit the seek
notification, then resume if it was playing. -/
def Controller.seek (c : Controller) (timestamp : String) :
    Controller × List Emission :=
  match c.timeline with
  | none => (c, [])
  | some tl =>
    let wasPlaying := c.status = PStatus.playing
    let pauseStep := if wasPlaying then c.pause else (c, [])
    let c1 := pauseStep.1
    let c2 := { c1 with acc := c.initialState.getD createEmptySessionState }
    let targetIndex := tl.findIndex timestamp
    let replayed :=
      (tl.entries.take (min targetIndex tl.entries.length)).foldl
        (fun a e => applyMessage a e.topic e.data (some e.timestamp)) c2.acc
    let c3 := { c2 with acc := replayed, currentIndex := targetIndex }
    let seekEms :=
      pauseStep.2 ++ [Emission.seekEmit c3.acc c3.getPlaybackState]
    if wasPlaying then
      let playStep := c3.play
      (playStep.1, seekEms ++ playStep.2)
    else (c3, seekEms)

/-- One pending-timer expiry: deliver the tick by disarming and running
scheduleNext; without a pending timer nothing happens. Iterated n times. -/
def Controller.drainFuel : Nat → Controller → Controller × List Emission
  | 0, c => (c, [])
  | n + 1, c =>
    if c.timerArmed then
      let fire := Controller.scheduleNext { c with timerArmed := false }
      let rest := Controller.drainFuel n fire.1
      (rest.1, fire.2 ++ rest.2)
    else (c, [])

/-! Session recorder and storage (src/recording/recorder.ts, storage.ts).
The write stream is modelled by an open flag plus the file contents; JSON
serialisation of a line and parsing it back is the identity on our value
type. -/

/-- Recording metadata (RecordingMetadata of src/recording/recorder.ts). -/
structure RecordingMetadata where
  sessionKey : String
  year : Nat
  sessionName : String
  sessionType : String
  circuit : String
  startTime : String
  endTime : Option String
  deriving DecidableEq, Repr

/-- One live.jsonl line. -/
structure RecLine where
  ts : String
  topic : String
  data : RawData
  deriving DecidableEq, Repr

/-- On-disk artefacts of one recording directory. -/
structure RecorderFiles where
  metadata : Option RecordingMetadata
  subscribe : Option SessionState
  liveLines : List RecLine
  deriving DecidableEq, Repr

/-- SessionRecorder state: directory, open stream flag, files, counter. -/
structure SessionRecorder where
  dir : String
  streamOpen : Bool
  files : RecorderFiles
  messageCount : Nat
  deriving DecidableEq, Repr

/-- SessionRecorder constructor: no stream yet. -/
def SessionRecorder.mk0 (baseDir sessionKey : String) (year : Nat) :
    SessionRecorder where
  dir := baseDir ++ "/" ++ toString year ++ "-" ++ sessionKey
  streamOpen := false
  files := { metadata := none, subscribe := none, liveLines := [] }
  messageCount := 0

/-- SessionRecorder.start: write metadata.json and subscribe.json, open
live.jsonl in append mode. -/
def SessionRecorder.start (r : SessionRecorder) (metadata : RecordingMetadata)
    (initialState : SessionState) : SessionRecorder :=
  { r with
      streamOpen := true
      files :=
        { r.files with
            metadata := some metadata
            subscribe := some initialState } }

/-- SessionRecorder.write: append one line unless the stream is absent. -/
def SessionRecorder.write (r : SessionRecorder) (msg : Msg) :
    SessionRecorder :=
  if r.streamOpen then
    { r with
        files :=
          { r.files with
              liveLines := r.files.liveLines ++
                [{ ts := msg.timestamp, topic := msg.topic
                   data := msg.data }] }
        messageCount := r.messageCount + 1 }
  else r

/-- SessionRecorder.stop: null the stream (before the close callback runs). -/
def SessionRecorder.stop (r : SessionRecorder) : SessionRecorder :=
  { r with streamOpen := false }

/-- loadInitialState of src/recording/storage.ts. -/
def loadInitialState (files : RecorderFiles) : Option SessionState :=
  files.subscribe

/-- loadTimeline of src/recording/storage.ts: one entry per JSONL line. -/
def loadTimeline (files : RecorderFiles) : List Msg :=
  files.liveLines.map (fun l =>
    { timestamp := l.ts, topic := l.topic, data := l.data })

/-! AWTRIX payload builders (src/mqtt/awtrix.ts) and the publisher event
fan-out (src/mqtt/publisher.ts). -/

/-- AWTRIX text fragment. -/
structure AwtrixTextFragment where
  t : String
  c : String
  deriving DecidableEq, Repr

/-- AWTRIX text value: a bare string or a fragment list. -/
inductive AwtrixText
  | str (s : String)
  | frags (l : List AwtrixTextFragment)
  deriving DecidableEq, Repr

/-- AWTRIX custom app payload. -/
structure AwtrixAppPayload where
  text : Option AwtrixText := none
  background : Option String := none
  color : Option String := none
  effect : Option String := none
  duration : Option Nat := none
  lifetime : Option Nat := none
  icon : Option String := none
  deriving DecidableEq, Repr

/-- AWTRIX notification payload. -/
structure AwtrixNotifyPayload where
  text : Option AwtrixText := none
  background : Option String := none
  color : Option String := none
  effect : Option String := none
  duration : Option Nat := none
  sound : Option String := none
  wakeup : Option Bool := none
  hold : Option Bool := none
  deriving DecidableEq, Repr

/-- Flag colours for the AWTRIX background (FLAG_COLORS). -/
def FLAG_COLORS : TrackFlag → String
  | TrackFlag.green => "00FF00"
  | TrackFlag.yellow => "FFFF00"
  | TrackFlag.red => "FF0000"
  | TrackFlag.sc => "FFA500"
  | TrackFlag.vsc => "FFA500"
  | TrackFlag.vscEnding => "00FF00"
  | TrackFlag.chequered => "FFFFFF"

/-- Flag labels (FLAG_LABELS). -/
def FLAG_LABELS : TrackFlag → String
  | TrackFlag.green => "GREEN"
  | TrackFlag.yellow => "YELLOW"
  | TrackFlag.red => "RED FLAG"
  | TrackFlag.sc => "SAFETY CAR"
  | TrackFlag.vsc => "VSC"
  | TrackFlag.vscEnding => "VSC END"
  | TrackFlag.chequered => "CHEQUERED"

/-- flagApp: the f1flag custom app payload; Pulse only for red and the
safety car, dark text for yellow and chequered. -/
def flagApp (flag : TrackFlag) : AwtrixAppPayload where
  text := some (AwtrixText.str (FLAG_LABELS flag))
  background := some (FLAG_COLORS flag)
  color :=
    some (if flag = TrackFlag.yellow ∨ flag = TrackFlag.chequered
      then "000000" else "FFFFFF")
  effect :=
    if flag = TrackFlag.red ∨ flag = TrackFlag.sc then some "Pulse" else none

/-- flagNotification: notification for a flag change; the effect is always
Pulse here. -/
def flagNotification (newFlag : TrackFlag) : AwtrixNotifyPayload where
  text := some (AwtrixText.str (FLAG_LABELS newFlag))
  background := some (FLAG_COLORS newFlag)
  color :=
    some (if newFlag = TrackFlag.yellow ∨ newFlag = TrackFlag.chequered
      then "000000" else "FFFFFF")
  effect := some "Pulse"
  duration := some 5
  sound := some "alarm"
  wakeup := some true

/-- overtakeNotification. -/
def overtakeNotification (overtakingAbbreviation overtakingTeamColor
    overtakenAbbreviation overtakenTeamColor : String) :
    AwtrixNotifyPayload where
  text :=
    some (AwtrixText.frags
      [{ t := overtakingAbbreviation, c := overtakingTeamColor },
       { t := " PASSES ", c := "FFFFFF" },
       { t := overtakenAbbreviation, c := overtakenTeamColor }])
  duration := some 4
  sound := some "notification"

/-- pitStopNotification (the recorded event type carries no pit-lane
duration, so the optional duration fragment never applies). -/
def pitStopNotification (abbreviation teamColor newCompound : String) :
    AwtrixNotifyPayload where
  text :=
    some (AwtrixText.frags
      [{ t := "PIT ", c := "FFFFFF" },
       { t := abbreviation, c := teamColor },
       { t := " " ++ newCompound, c := "AAAAAA" }])
  duration := some 3

/-- awtrixNotifyTopic. -/
def awtrixNotifyTopic (awtrixPfx : String) : String :=
  awtrixPfx ++ "/notify"

/-- Publisher configuration (PublisherConfig of src/mqtt/publisher.ts). -/
structure PublisherConfig where
  pfx : String
  favoriteDrivers : List String
  awtrixEnabled : Bool
  awtrixPfx : String
  deriving DecidableEq, Repr

/-- Published payload: an event object or an AWTRIX notification object. -/
inductive PubPayload
  | ev (e : F1Event)
  | notify (n : AwtrixNotifyPayload)
  deriving DecidableEq, Repr

/-- One MQTT publication (topic, payload, retain flag). -/
structure Publication where
  topic : String
  payload : PubPayload
  retain : Bool
  deriving DecidableEq, Repr

/-- Event topic builders (src/mqtt/topics.ts). -/
def eventFlagTopic (pfx : String) : String := pfx ++ "/event/flag"

/-- Overtake event topic. -/
def eventOvertakeTopic (pfx : String) : String := pfx ++ "/event/overtake"

/-- Pit stop event topic. -/
def eventPitStopTopic (pfx : String) : String := pfx ++ "/event/pit_stop"

/-- Weather event topic. -/
def eventWeatherTopic (pfx : String) : String := pfx ++ "/event/weather"

/-- MqttPublisher.publishEvents: each event goes unretained to its event
topic; with the notifier enabled, flag, overtake and pit events also produce
a notification on the notify topic. -/
def publishEvents (cfg : PublisherConfig) (events : List F1Event) :
    List Publication :=
  events.flatMap (fun event =>
    match event with
    | F1Event.flagChange _ _ newFlag _ =>
      { topic := eventFlagTopic cfg.pfx, payload := PubPayload.ev event
        retain := false } ::
        (if cfg.awtrixEnabled then
          [{ topic := awtrixNotifyTopic cfg.awtrixPfx
             payload := PubPayload.notify (flagNotification newFlag)
             retain := false }]
        else [])
    | F1Event.overtake _ _ oa oc _ ota otc _ =>
      { topic := eventOvertakeTopic cfg.pfx, payload := PubPayload.ev event
        retain := false } ::
        (if cfg.awtrixEnabled then
          [{ topic := awtrixNotifyTopic cfg.awtrixPfx
             payload := PubPayload.notify (overtakeNotification oa oc ota otc)
             retain := false }]
        else [])
    | F1Event.pitStop _ _ abbr color compound _ =>
      { topic := eventPitStopTopic cfg.pfx, payload := PubPayload.ev event
        retain := false } ::
        (if cfg.awtrixEnabled then
          [{ topic := awtrixNotifyTopic cfg.awtrixPfx
             payload := PubPayload.notify
               (pitStopNotification abbr color compound)
             retain := false }]
        else [])
    | F1Event.weatherChange _ _ _ =>
      [{ topic := eventWeatherTopic cfg.pfx, payload := PubPayload.ev event
         retain := false }])

/-! Helper lemmas and concrete demonstration inputs. -/

/-- Demonstration message: a red-flag track status diff. -/
def demoRedMsg : Msg where
  timestamp := "2025-01-01T00:00:00Z"
  topic := "TrackStatus"
  data := RawData.trackStatus { Status := some "5", Message := none }

/-- Demonstration lap-count entry. -/
def demoLapMsg (sec : String) (lap : Nat) : Msg where
  timestamp := "2025-01-01T00:00:0" ++ sec ++ "Z"
  topic := "LapCount"
  data := RawData.lapCount { CurrentLap := some lap, TotalLaps := some 52 }

/-- Demonstration one-entry timeline. -/
def demoTimeline1 : Timeline := Timeline.ofEntries [demoLapMsg "0" 1]

/-- Demonstration two-entry timeline. -/
def demoTimeline2 : Timeline :=
  Timeline.ofEntries [demoLapMsg "0" 1, demoLapMsg "1" 2]

/-- Controller that has loaded the one-entry timeline and played it to the
end: play processes the single entry and finalises, emitting finished. -/
def demoFinishedRun : Controller × List Emission :=
  ((Controller.init.load demoTimeline1 none PMode.recorded).1).play

/-- Reschedule step taken by setSpeed while playing with a pending timer:
the timer is cancelled and scheduleNext runs at the newly stored speed. -/
def speedReschedule (c : Controller) (s : Rat) : Controller × List Emission :=
  Controller.scheduleNext { c with speed := s, timerArmed := false }

/-- Demonstration publisher configuration with the notifier enabled. -/
def demoPublisherConfig : PublisherConfig where
  pfx := "f12mqtt"
  favoriteDrivers := []
  awtrixEnabled := true
  awtrixPfx := "awtrix_abc123"

/-- Demonstration flag-change event to yellow. -/
def demoYellowEvent : F1Event :=
  F1Event.flagChange "2025-01-01T00:00:00Z" TrackFlag.green TrackFlag.yellow
    none

/-- Demonstration timing row for driver 1 at position 1. -/
def demoTimingRow : DriverTiming := { defaultDriverTiming "1" with position := 1 }

/-- Demonstration state having that timing row. -/
def demoTimingState : SessionState :=
  { createEmptySessionState with timing := [("1", demoTimingRow)] }

/-- Demonstration raw timing diff that only mentions InPit. -/
def demoInPitEntry : RawTimingEntry where
  Position := none
  GapToLeader := none
  IntervalValue := none
  LastLapValue := none
  BestLapValue := none
  Sectors := []
  InPit := some true
  Retired := none
  Stopped := none

/-- State obtained by replaying the timeline prefix before the seek target
onto a fresh copy of the controller's initial state. -/
def seekReplayState (c : Controller) (tl : Timeline) (t : String) :
    SessionState :=
  (tl.entries.take (tl.findIndex t)).foldl
    (fun a e => applyMessage a e.topic e.data (some e.timestamp))
    (c.initialState.getD createEmptySessionState)

/-- Controller playing the two-entry demonstration timeline, then seeking to
a timestamp before all entries. -/
def demoPlayingSeek : Controller × List Emission :=
  (((Controller.init.load demoTimeline2 none PMode.recorded).1.play).1).seek
    "2000-01-01T00:00:00Z"

/-- Accumulator state after applying a list of entries in order. -/
def runAcc (a : SessionState) (es : List Msg) : SessionState :=
  es.foldl (fun a e => applyMessage a e.topic e.data (some e.timestamp)) a

/-- Events detected while applying a list of entries in order. -/
def runEvents (a : SessionState) : List Msg → List F1Event
  | [] => []
  | e :: rest =>
    detectEvents a (applyMessage a e.topic e.data (some e.timestamp)) ++
      runEvents (applyMessage a e.topic e.data (some e.timestamp)) rest

/-- Demonstration message arriving first with the later timestamp: a yellow
flag. -/
def demoLateYellow : Msg where
  timestamp := "2025-01-01T00:00:02Z"
  topic := "TrackStatus"
  data := RawData.trackStatus { Status := some "2", Message := none }

/-- Demonstration message arriving second with the earlier timestamp: a
green flag. -/
def demoEarlyGreen : Msg where
  timestamp := "2025-01-01T00:00:01Z"
  topic := "TrackStatus"
  data := RawData.trackStatus { Status := some "1", Message := none }

/-- Demonstration recording metadata. -/
def demoMeta : RecordingMetadata where
  sessionKey := "9999"
  year := 2025
  sessionName := "Demo Session"
  sessionType := "Race"
  circuit := "Demo"
  startTime := "2025-01-01T00:00:00Z"
  endTime := none

/-- Record a live session: start a recorder with the metadata and initial
snapshot, write every message, and take the resulting file set. -/
def recordSession (meta : RecordingMetadata) (s0 : SessionState)
    (ms : List Msg) : RecorderFiles :=
  (ms.foldl SessionRecorder.write
    ((SessionRecorder.mk0 "recordings" meta.sessionKey meta.year).start
      meta s0)).files

/-- Live run through the SignalR pipeline: final accumulator and the events
emitted on the events channel. -/
def liveRun (s0 : SessionState) (ms : List Msg) :
    SessionState × List F1Event :=
  ((SignalRPipeline.run s0 ms).1,
    emittedEvents (SignalRPipeline.run s0 ms).2)

/-- Replay run: load the recorded files into a fresh controller, play, and
let every timer fire; final accumulator and the events emitted on the
events channel. -/
def replayRun (files : RecorderFiles) : SessionState × List F1Event :=
  let tl := Timeline.ofEntries (loadTimeline files)
  let c1 := (Controller.init.load tl (loadInitialState files)
    PMode.recorded).1
  let played := c1.play
  let drained := Controller.drainFuel tl.entries.length played.1
  (drained.1.acc, emittedEvents (played.2 ++ drained.2))

/-- Lookup finds the value of a key that occurs in a map with distinct keys. -/
theorem JMap.lookupA_of_mem_nodup {α : Type} {m : JMap α} {k : String}
    {v : α} (hnd : (m.map Prod.fst).Nodup) (h : (k, v) ∈ m) :
    m.lookupA k = some v := by
  induction m with
  | nil => cases h
  | cons p rest ih =>
    rcases List.mem_cons.mp h with hhead | htail
    · subst hhead
      simp [JMap.lookupA, List.find?]
    · have hk : p.1 ≠ k := by
        intro hcontra
        have : p.1 ∈ rest.map Prod.fst := by
          refine List.mem_map.mpr ⟨(k, v), htail, ?_⟩
          simp [hcontra]
        exact (List.nodup_cons.mp hnd).1 this
      have ih2 := ih (List.nodup_cons.mp hnd).2 htail
      simpa [JMap.lookupA, List.find?, hk] using ih2

/-- The binary-search loop never returns an index above hi. -/
theorem bsearchAux_le (es : List Msg) (t : String) :
    ∀ (fuel lo hi : Nat), lo ≤ hi → bsearchAux es t fuel lo hi ≤ hi := by
  intro fuel
  induction fuel with
  | zero => intro lo hi h; simpa [bsearchAux] using h
  | succ n ih =>
    intro lo hi h
    rw [bsearchAux]
    split
    · rename_i hlt
      cases hget : es.get? ((lo + hi) / 2) with
      | none => simpa using h
      | some e =>
        simp only [hget]
        split
        · exact ih ((lo + hi) / 2 + 1) hi (by omega)
        · exact le_trans (ih lo ((lo + hi) / 2) (by omega)) (by omega)
    · simpa using h

/-- findIndex never exceeds the timeline length. -/
theorem Timeline.findIndex_le (t : Timeline) (timestamp : String) :
    t.findIndex timestamp ≤ t.entries.length :=
  bsearchAux_le t.entries timestamp t.entries.length 0 t.entries.length
    (Nat.zero_le _)

/-- Stable insertion of an element below the head keeps a sorted list
unchanged ahead of it. -/
theorem ssortInsert_cons_of_le {α : Type} (le : α → α → Bool) (x : α)
    (xs : List α) (h : ∀ y ∈ xs.head?, le x y = true) :
    ssortInsert le x xs = x :: xs := by
  cases xs with
  | nil => rfl
  | cons y ys => simp [ssortInsert, h y rfl]

/-- Sorting an already-sorted list is the identity. -/
theorem ssort_of_sorted {α : Type} (le : α → α → Bool) (l : List α)
    (h : l.Pairwise (fun a b => le a b = true)) : ssort le l = l := by
  induction l with
  | nil => rfl
  | cons x xs ih =>
    have hx := (List.pairwise_cons.mp h).1
    have hxs := (List.pairwise_cons.mp h).2
    rw [ssort, ih hxs]
    refine ssortInsert_cons_of_le le x xs ?_
    intro y hy
    cases xs with
    | nil => cases hy
    | cons w ws =>
      have hyw : w = y := by simpa using hy
      subst hyw
      exact hx w (by simp)

/-! Claim theorems. -/

/-- C7: applying a TrackStatus diff whose Status code is not recognised
leaves the trackStatus field unchanged; the whole snapshot is unchanged
except that the timestamp is updated when provided. -/
theorem c7_unknown_flag_immutable (s : SessionState) (raw : RawTrackStatus)
    (ts : Option String) (code : String) (hcode : raw.Status = some code)
    (hunknown : FLAG_NAMES code = none) :
    applyMessage s "TrackStatus" (RawData.trackStatus raw) ts =
      { s with timestamp := ts.getD s.timestamp } := by
  cases ts with
  | none => simp [applyMessage, parseTrackStatus, hcode, hunknown]
  | some t => simp [applyMessage, parseTrackStatus, hcode, hunknown]

/-- C7 witness: the Status 99 diff of the unit test leaves the default green
track status in place and only moves the timestamp. -/
theorem c7_unknown_flag_immutable_witness :
    applyMessage createEmptySessionState "TrackStatus"
        (RawData.trackStatus { Status := some "99", Message := none })
        (some "2025-05-25T14:30:00Z") =
      { createEmptySessionState with timestamp := "2025-05-25T14:30:00Z" } := by
  have h := c7_unknown_flag_immutable createEmptySessionState
    { Status := some "99", Message := none } (some "2025-05-25T14:30:00Z")
    "99" rfl (by decide)
  simpa using h

/-- C10: SessionRecorder.write with no open stream (before start, or after
stop has nulled the stream) changes nothing: no line is appended, the
message count is unchanged; a fresh recorder and a stopped recorder both
have no open stream. -/
theorem c10_write_without_stream_noop :
    (∀ (r : SessionRecorder) (m : Msg), r.streamOpen = false → r.write m = r)
    ∧ (∀ (baseDir sessionKey : String) (year : Nat),
        (SessionRecorder.mk0 baseDir sessionKey year).streamOpen = false)
    ∧ (∀ r : SessionRecorder, r.stop.streamOpen = false) := by
  refine ⟨?_, ?_, ?_⟩
  · intro r m h
    simp [SessionRecorder.write, h]
  · intro baseDir sessionKey year
    rfl
  · intro r
    rfl

/-- C10 witness: writing to a never-started recorder and to a stopped
recorder leaves both recorders (lines and counter included) unchanged. -/
theorem c10_write_without_stream_noop_witness :
    (SessionRecorder.mk0 "/data/recordings" "9999" 2025).write demoRedMsg =
      SessionRecorder.mk0 "/data/recordings" "9999" 2025
    ∧ (((SessionRecorder.mk0 "/data/recordings" "9999" 2025).start
          { sessionKey := "9999", year := 2025, sessionName := "Race"
            sessionType := "Race", circuit := "X"
            startTime := "2025-01-01T00:00:00Z", endTime := none }
          createEmptySessionState).stop).write demoRedMsg =
        ((SessionRecorder.mk0 "/data/recordings" "9999" 2025).start
          { sessionKey := "9999", year := 2025, sessionName := "Race"
            sessionType := "Race", circuit := "X"
            startTime := "2025-01-01T00:00:00Z", endTime := none }
          createEmptySessionState).stop := by
  constructor
  · exact c10_write_without_stream_noop.1 _ demoRedMsg
      (c10_write_without_stream_noop.2.1 "/data/recordings" "9999" 2025)
  · exact c10_write_without_stream_noop.1 _ demoRedMsg
      (c10_write_without_stream_noop.2.2 _)

/-- C5 counterexample: setSpeed 0 stores the speed 0, not 1: the claim that
a zero or negative argument results in a stored speed of 1 fails on the
code, which assigns the argument verbatim. -/
theorem c5_set_speed_zero_counterexample :
    ((Controller.init.setSpeed 0).1.speed = 0)
    ∧ ¬ ((Controller.init.setSpeed 0).1.speed = 1) := by
  constructor
  · rfl
  · intro h
    simp [Controller.setSpeed, Controller.init] at h

/-- scheduleNext only touches the accumulator, the index, the status and the
timer flag: timeline, initial state, speed and mode are preserved. -/
theorem scheduleNextAux_preserves (fuel : Nat) (c : Controller) :
    (scheduleNextAux fuel c).1.timeline = c.timeline
    ∧ (scheduleNextAux fuel c).1.initialState = c.initialState
    ∧ (scheduleNextAux fuel c).1.speed = c.speed
    ∧ (scheduleNextAux fuel c).1.mode = c.mode := by
  induction fuel generalizing c with
  | zero => exact ⟨rfl, rfl, rfl, rfl⟩
  | succ n ih =>
    rw [scheduleNextAux]
    cases htl : c.timeline with
    | none => exact ⟨rfl, rfl, rfl, rfl⟩
    | some tl =>
      dsimp only
      by_cases hg : c.status ≠ PStatus.playing ∨
          tl.entries.length ≤ c.currentIndex
      · rw [if_pos hg]
        split
        · exact ⟨rfl, rfl, rfl, rfl⟩
        · exact ⟨htl, rfl, rfl, rfl⟩
      · rw [if_neg hg]
        cases hget : tl.entries.get? c.currentIndex with
        | none => exact ⟨htl, rfl, rfl, rfl⟩
        | some entry =>
          simp only
          split
          · exact ⟨rfl, rfl, rfl, rfl⟩
          · exact ih { c with
              timeline := some tl
              acc := (c.processEntry entry).1
              currentIndex := c.currentIndex + 1 }

/-- C5 amended: setSpeed stores its argument verbatim (no clamping of zero
or negative values happens in the controller; the web command layer maps 0
and NaN to 1 but forwards negative numbers); when not playing or without a
pending timer the only effect is the new speed plus one stateChange; when
playing with a pending timer, the timer is cancelled and scheduleNext runs
immediately at the new rate, with the stateChange emitted last. -/
theorem c5_set_speed_amended (c : Controller) (s : Rat) :
    ((c.setSpeed s).1.speed = s)
    ∧ (¬ (c.status = PStatus.playing ∧ c.timerArmed = true) →
        c.setSpeed s =
          ({ c with speed := s },
            [Emission.stateChange ({ c with speed := s }).getPlaybackState]))
    ∧ (c.status = PStatus.playing ∧ c.timerArmed = true →
        c.setSpeed s =
          ((speedReschedule c s).1,
            (speedReschedule c s).2 ++
              [Emission.stateChange (speedReschedule c s).1.getPlaybackState]))
    := by
  refine ⟨?_, ?_, ?_⟩
  · by_cases h : c.status = PStatus.playing ∧ c.timerArmed = true
    · have hpres := (scheduleNextAux_preserves 2
        { c with speed := s, timerArmed := false }).2.2.1
      simp [Controller.setSpeed, h, Controller.scheduleNext] at hpres ⊢
      simp [hpres]
    · have hb : ¬ (c.status = PStatus.playing ∧ ({ c with speed := s } :
          Controller).timerArmed) := by
        simpa using h
      simp [Controller.setSpeed, hb]
  · intro h
    have hb : ¬ (c.status = PStatus.playing ∧ ({ c with speed := s } :
        Controller).timerArmed) := by
      simpa using h
    simp [Controller.setSpeed, hb]
  · intro h
    simp [Controller.setSpeed, speedReschedule, h]

/-- C2 counterexample: one playback-controller message that detects a flag
change produces the trace [update, event]: the aggregate update emission
comes first, so not all of the message's per-event emissions precede its
update emission as the claim states for the playback controller. -/
theorem c2_controller_update_first_counterexample :
    ((Controller.init.processEntry demoRedMsg).2.map Emission.isUpdate =
      [true, false])
    ∧ ((Controller.init.processEntry demoRedMsg).2.map Emission.isEvent =
      [false, true]) := by
  constructor
  · rfl
  · rfl

/-- C2 amended: emissions of a single Pipeline are serialised per message,
but the within-message order differs by origin: the live pipeline emits all
per-event notifications and then the aggregate update, while the playback
controller emits the aggregate update and then the per-event notifications;
for consecutive messages, the trace of a run is the trace of the first
message followed by the trace of the rest, so all emissions of message M
precede every emission of a later message N. -/
theorem c2_emission_order_amended (acc : SessionState) (m : Msg)
    (c : Controller) (e : Msg) (s : SessionState) (ms : List Msg) :
    (∃ evs u, (SignalRPipeline.processMessage acc m).2 = evs ++ [u]
      ∧ (∀ x ∈ evs, x.isEvent = true) ∧ u.isUpdate = true)
    ∧ (∃ u evs, (c.processEntry e).2 = u :: evs
      ∧ u.isUpdate = true ∧ (∀ x ∈ evs, x.isEvent = true))
    ∧ ((SignalRPipeline.run s (m :: ms)).2 =
        (SignalRPipeline.processMessage s m).2 ++
          (SignalRPipeline.run (SignalRPipeline.processMessage s m).1 ms).2)
    := by
  refine ⟨?_, ?_, rfl⟩
  · refine ⟨(detectEvents acc (applyMessage acc m.topic m.data
      (some m.timestamp))).map Emission.event, _, rfl, ?_, rfl⟩
    intro x hx
    rcases List.mem_map.mp hx with ⟨ev, _, hev⟩
    rw [← hev]
    rfl
  · refine ⟨_, (detectEvents c.acc (applyMessage c.acc e.topic e.data
      (some e.timestamp))).map Emission.event, rfl, rfl, ?_⟩
    intro x hx
    rcases List.mem_map.mp hx with ⟨ev, _, hev⟩
    rw [← hev]
    rfl

/-- C9 counterexample: the flag-change notification built for a transition
to green carries effect Pulse, although the claim (and the flag appearance
table, which the flag custom app follows) assigns no effect to green. -/
theorem c9_flag_notification_green_pulse_counterexample :
    (flagNotification TrackFlag.green).effect = some "Pulse"
    ∧ (flagApp TrackFlag.green).effect = none := by
  constructor
  · rfl
  · rfl

/-- C9 amended: for every flag_change event published while the notifier is
enabled, the notification sent to the notify topic carries the appearance
table's background colour and text for the new flag, and dark text exactly
for yellow and chequered; its effect however is always Pulse (for every
flag, not only red and sc), with duration 5, sound alarm and wakeup true. -/
theorem c9_flag_notification_decoration_amended (cfg : PublisherConfig)
    (events : List F1Event) (ets : String) (pf nf : TrackFlag)
    (msg : Option String) (hen : cfg.awtrixEnabled = true)
    (hmem : F1Event.flagChange ets pf nf msg ∈ events) :
    ({ topic := awtrixNotifyTopic cfg.awtrixPfx
       payload := PubPayload.notify (flagNotification nf)
       retain := false } : Publication) ∈ publishEvents cfg events
    ∧ (flagNotification nf).background = some (FLAG_COLORS nf)
    ∧ (flagNotification nf).text = some (AwtrixText.str (FLAG_LABELS nf))
    ∧ ((flagNotification nf).color = some "000000" ↔
        (nf = TrackFlag.yellow ∨ nf = TrackFlag.chequered))
    ∧ (flagNotification nf).effect = some "Pulse"
    ∧ (flagNotification nf).duration = some 5
    ∧ (flagNotification nf).sound = some "alarm"
    ∧ (flagNotification nf).wakeup = some true := by
  refine ⟨?_, rfl, rfl, ?_, rfl, rfl, rfl, rfl⟩
  · refine List.mem_flatMap.mpr ⟨F1Event.flagChange ets pf nf msg, hmem, ?_⟩
    simp [hen]
  · constructor
    · intro h
      by_contra hcontra
      push_neg at hcontra
      have h1 : ¬ (nf = TrackFlag.yellow ∨ nf = TrackFlag.chequered) := by
        tauto
      simp [flagNotification, h1] at h
    · intro h
      simp [flagNotification, h]

/-- C4 counterexample: load a one-entry timeline and play it to the end (the
play trace contains the finished emission); afterwards the code re-emits
finished and stateChange on every further scheduleNext invocation instead
of emitting nothing, and stop() changes the controller (currentIndex moves
from 1 back to 0) and emits a stateChange instead of being a no-op. -/
theorem c4_post_finished_counterexample :
    Emission.finished ∈ demoFinishedRun.2
    ∧ (demoFinishedRun.1.scheduleNext).2 ≠ []
    ∧ (demoFinishedRun.1.stop).1 ≠ demoFinishedRun.1
    ∧ (demoFinishedRun.1.stop).2 ≠ [] := by
  refine ⟨?_, ?_, ?_, ?_⟩
  · decide
  · decide
  · decide
  · decide

/-- C4 amended: once the controller has finished (stopped with the index at
or past the end of its loaded timeline, no timer pending), a further
scheduleNext invocation processes no entry and changes nothing, but it
emits finished and stateChange again rather than nothing; stop() likewise
processes nothing, yet it resets currentIndex to 0 and emits one
stateChange, so it is not a no-op. -/
theorem c4_post_finished_amended (c : Controller) (tl : Timeline)
    (htl : c.timeline = some tl) (hs : c.status = PStatus.stopped)
    (hi : tl.entries.length ≤ c.currentIndex) :
    c.scheduleNext = (c, [Emission.finished,
      Emission.stateChange c.getPlaybackState])
    ∧ c.stop = ({ c with timerArmed := false, currentIndex := 0 },
        [Emission.stateChange
          ({ c with timerArmed := false, currentIndex := 0 } :
            Controller).getPlaybackState]) := by
  obtain ⟨ctl, cinit, cacc, cidx, cstat, csp, cmode, carm⟩ := c
  dsimp only at htl hs hi
  subst htl
  subst hs
  constructor
  · rw [Controller.scheduleNext, scheduleNextAux]
    dsimp only
    rw [if_pos (Or.inr hi), if_pos hi]
  · rw [Controller.stop]

/-- C2 witness: the serialisation conjunct applied to a one-message run from
the empty snapshot. -/
theorem c2_emission_order_amended_witness :
    (SignalRPipeline.run createEmptySessionState [demoRedMsg]).2 =
      (SignalRPipeline.processMessage createEmptySessionState demoRedMsg).2 ++
        (SignalRPipeline.run
          (SignalRPipeline.processMessage createEmptySessionState
            demoRedMsg).1 []).2 :=
  (c2_emission_order_amended createEmptySessionState demoRedMsg
    Controller.init demoRedMsg createEmptySessionState []).2.2

/-- C4 witness: the amended scheduleNext equation applied to the concrete
finished controller of the demonstration run. -/
theorem c4_post_finished_amended_witness :
    demoFinishedRun.1.scheduleNext =
      (demoFinishedRun.1, [Emission.finished,
        Emission.stateChange demoFinishedRun.1.getPlaybackState]) :=
  (c4_post_finished_amended demoFinishedRun.1 demoTimeline1 (by decide)
    (by decide) (by decide)).1

/-- C5 witness: setSpeed 3 on a fresh (non-playing) controller stores the
speed 3 and emits a single stateChange. -/
theorem c5_set_speed_amended_witness :
    Controller.init.setSpeed 3 =
      ({ Controller.init with speed := 3 },
        [Emission.stateChange
          ({ Controller.init with speed := 3 } :
            Controller).getPlaybackState]) :=
  (c5_set_speed_amended Controller.init 3).2.1 (by decide)

/-- C9 witness: the amended decoration conclusion for a published yellow
flag change with the notifier enabled. -/
theorem c9_flag_notification_decoration_amended_witness :
    ({ topic := awtrixNotifyTopic demoPublisherConfig.awtrixPfx
       payload := PubPayload.notify (flagNotification TrackFlag.yellow)
       retain := false } : Publication) ∈
      publishEvents demoPublisherConfig [demoYellowEvent]
    ∧ (flagNotification TrackFlag.yellow).color = some "000000"
    ∧ (flagNotification TrackFlag.yellow).effect = some "Pulse" := by
  have h := c9_flag_notification_decoration_amended demoPublisherConfig
    [demoYellowEvent] "2025-01-01T00:00:00Z" TrackFlag.green TrackFlag.yellow
    none rfl (by simp [demoYellowEvent])
  exact ⟨h.1, h.2.2.2.1.mpr (Or.inl rfl), h.2.2.2.2.1⟩

/-- C8: under sc, vsc, vsc_ending or red the overtake detector returns no
events regardless of position changes; and (for snapshots whose timing map
has distinct keys, as JavaScript objects do) every emitted overtake event
names an overtaking driver whose current timing row is not in the pit. -/
theorem c8_overtake_gating (prev curr : SessionState)
    (hnd : (curr.timing.map Prod.fst).Nodup) :
    (curr.trackStatus.flag ∈ NON_OVERTAKE_FLAGS →
      detectOvertakes prev curr = [])
    ∧ (∀ ets d oa oc od ota otc np,
        F1Event.overtake ets d oa oc od ota otc np ∈
            detectOvertakes prev curr →
          ∃ trow, curr.timing.lookupA d = some trow ∧ trow.inPit = false) := by
  constructor
  · intro hflag
    have hc : NON_OVERTAKE_FLAGS.contains curr.trackStatus.flag = true := by
      simpa using hflag
    rw [detectOvertakes, if_pos hc]
  · intro ets d oa oc od ota otc np hmem
    rw [detectOvertakes] at hmem
    by_cases hc : NON_OVERTAKE_FLAGS.contains curr.trackStatus.flag = true
    · rw [if_pos hc] at hmem
      simp at hmem
    · rw [if_neg hc] at hmem
      rcases List.mem_flatMap.mp hmem with ⟨dp, hdp, hin⟩
      cases hlp : prev.timing.lookupA dp.1 with
      | none => rw [hlp] at hin; simp at hin
      | some prevTiming =>
        rw [hlp] at hin
        dsimp only at hin
        by_cases h1 : dp.2.position ≥ prevTiming.position
        · rw [if_pos h1] at hin
          simp at hin
        · rw [if_neg h1] at hin
          by_cases h2 : dp.2.inPit = true
          · rw [if_pos h2] at hin
            simp at hin
          · rw [if_neg h2] at hin
            rcases List.mem_flatMap.mp hin with ⟨op, _hop, hin2⟩
            by_cases h3 : op.1 = dp.1
            · rw [if_pos h3] at hin2
              simp at hin2
            · rw [if_neg h3] at hin2
              cases hlo : prev.timing.lookupA op.1 with
              | none => rw [hlo] at hin2; simp at hin2
              | some otherPrev =>
                rw [hlo] at hin2
                dsimp only at hin2
                by_cases h4 : otherPrev.position < prevTiming.position ∧
                    op.2.position > dp.2.position ∧
                    otherPrev.position ≥ dp.2.position
                · rw [if_pos h4] at hin2
                  by_cases h5 : op.2.inPit = true ∨ otherPrev.inPit = true
                  · rw [if_pos h5] at hin2
                    simp at hin2
                  · rw [if_neg h5] at hin2
                    by_cases h6 : op.2.retired = true
                    · rw [if_pos h6] at hin2
                      simp at hin2
                    · rw [if_neg h6] at hin2
                      have hev := List.mem_singleton.mp hin2
                      simp only [F1Event.overtake.injEq] at hev
                      refine ⟨dp.2, ?_, ?_⟩
                      · rw [hev.2.1]
                        exact JMap.lookupA_of_mem_nodup hnd hdp
                      · simpa using h2
                · rw [if_neg h4] at hin2
                  simp at hin2

/-- C8 witness: during a safety car the detector suppresses the position
swap of scenario S3, and under green the single detected overtake of
scenario S2 names an overtaking driver who is not in the pit. -/
theorem c8_overtake_gating_witness :
    detectOvertakes
      { createEmptySessionState with
          timing := [("1", { defaultDriverTiming "1" with position := 1 }),
            ("4", { defaultDriverTiming "4" with position := 2 })] }
      { createEmptySessionState with
          trackStatus := { flag := TrackFlag.sc, message := none }
          timing := [("1", { defaultDriverTiming "1" with position := 2 }),
            ("4", { defaultDriverTiming "4" with position := 1 })] } = [] :=
  (c8_overtake_gating
    { createEmptySessionState with
        timing := [("1", { defaultDriverTiming "1" with position := 1 }),
          ("4", { defaultDriverTiming "4" with position := 2 })] }
    { createEmptySessionState with
        trackStatus := { flag := TrackFlag.sc, message := none }
        timing := [("1", { defaultDriverTiming "1" with position := 2 }),
          ("4", { defaultDriverTiming "4" with position := 1 })] }
    (by decide)).1 (by decide)

/-- Replacing the binding of key k in place does not affect the lookup of
any other key. -/
theorem JMap.lookupA_mapReplace_ne {α : Type} (m : JMap α) (k k2 : String)
    (v : α) (hne : k2 ≠ k) :
    JMap.lookupA (m.map (fun p => if p.1 = k then (k, v) else p)) k2 =
      m.lookupA k2 := by
  have hk2 : ¬ k = k2 := fun hcontra => hne hcontra.symm
  induction m with
  | nil => rfl
  | cons p rest ih =>
    by_cases hp : p.1 = k
    · have hpk2 : ¬ p.1 = k2 := by
        rw [hp]
        exact hk2
      simpa [JMap.lookupA, List.find?, hp, hk2, hpk2] using ih
    · by_cases hp2 : p.1 = k2
      · unfold JMap.lookupA
        rw [List.map_cons, if_neg hp,
          List.find?_cons_of_pos _ (by simp [hp2]),
          List.find?_cons_of_pos _ (by simp [hp2])]
      · simpa [JMap.lookupA, List.find?, hp, hp2] using ih

/-- Replacing the binding of a key that occurs in the map makes it the
looked-up value. -/
theorem JMap.lookupA_mapReplace_self {α : Type} (m : JMap α) (k : String)
    (v : α) (h : m.any (fun p => decide (p.1 = k)) = true) :
    JMap.lookupA (m.map (fun p => if p.1 = k then (k, v) else p)) k =
      some v := by
  induction m with
  | nil => simp at h
  | cons p rest ih =>
    by_cases hp : p.1 = k
    · simp [JMap.lookupA, List.find?, hp]
    · have hrest : rest.any (fun p => decide (p.1 = k)) = true := by
        rcases List.any_eq_true.mp h with ⟨q, hq, hqk⟩
        rcases List.mem_cons.mp hq with hq1 | hq2
        · exact absurd (by simpa [hq1] using hqk) hp
        · exact List.any_eq_true.mpr ⟨q, hq2, hqk⟩
      simpa [JMap.lookupA, List.find?, hp] using ih hrest

/-- Upserting a key makes it the looked-up value. -/
theorem JMap.lookupA_upsert_self {α : Type} (m : JMap α) (k : String)
    (v : α) : (m.upsert k v).lookupA k = some v := by
  unfold JMap.upsert
  by_cases h : m.any (fun p => decide (p.1 = k)) = true
  · rw [if_pos h]
    exact JMap.lookupA_mapReplace_self m k v h
  · rw [if_neg h]
    have hnone : m.find? (fun p => decide (p.1 = k)) = none := by
      rw [List.find?_eq_none]
      intro q hq hqk
      exact h (List.any_eq_true.mpr ⟨q, hq, hqk⟩)
    simp [JMap.lookupA, List.find?_append, hnone, List.find?]

/-- Upserting one key leaves the lookup of every other key unchanged. -/
theorem JMap.lookupA_upsert_ne {α : Type} (m : JMap α) (k k2 : String)
    (v : α) (hne : k2 ≠ k) : (m.upsert k v).lookupA k2 = m.lookupA k2 := by
  have hk2 : ¬ k = k2 := fun hcontra => hne hcontra.symm
  unfold JMap.upsert
  by_cases h : m.any (fun p => decide (p.1 = k)) = true
  · rw [if_pos h]
    exact JMap.lookupA_mapReplace_ne m k k2 v hne
  · rw [if_neg h]
    unfold JMap.lookupA
    rw [List.find?_append]
    cases hfind : m.find? (fun p => decide (p.1 = k2)) with
    | some q => simp [hfind]
    | none => simp [hfind, List.find?, hk2]

/-- A fold of keyed merges over partials whose keys all differ from k does
not affect the lookup of k. -/
theorem mergeKeyed_lookupA_notMem {β π : Type} (defaultFor : String → β)
    (mergeOne : β → π → β) (ps : List (String × π)) (m : JMap β)
    (k : String) (h : ∀ q ∈ ps, q.1 ≠ k) :
    (mergeKeyed defaultFor mergeOne m ps).lookupA k = m.lookupA k := by
  induction ps generalizing m with
  | nil => rfl
  | cons q rest ih =>
    have hq : q.1 ≠ k := h q (by simp)
    have hrest : ∀ p ∈ rest, p.1 ≠ k := fun p hp => h p (by simp [hp])
    rw [mergeKeyed, List.foldl_cons, ← mergeKeyed, ih _ hrest]
    exact JMap.lookupA_upsert_ne m q.1 k _ (fun hc => hq hc.symm)

/-- A fold of keyed merges with distinct keys: a key k present both in the
map and among the partials ends up bound to the merge of its old value with
its partial. -/
theorem mergeKeyed_lookupA_mem {β π : Type} (defaultFor : String → β)
    (mergeOne : β → π → β) (ps : List (String × π)) (m : JMap β)
    (k : String) (p : π) (b : β) (hnd : (ps.map Prod.fst).Nodup)
    (hmem : (k, p) ∈ ps) (hlk : m.lookupA k = some b) :
    (mergeKeyed defaultFor mergeOne m ps).lookupA k =
      some (mergeOne b p) := by
  induction ps generalizing m with
  | nil => cases hmem
  | cons q rest ih =>
    rw [List.map_cons] at hnd
    have hnd1 := (List.nodup_cons.mp hnd).1
    have hnd2 := (List.nodup_cons.mp hnd).2
    rcases List.mem_cons.mp hmem with hq | hq
    · subst hq
      have hknotin : ∀ r ∈ rest, r.1 ≠ k := by
        intro r hr hcontra
        exact hnd1 (List.mem_map.mpr ⟨r, hr, hcontra⟩)
      rw [mergeKeyed, List.foldl_cons, ← mergeKeyed,
        mergeKeyed_lookupA_notMem _ _ _ _ _ hknotin]
      dsimp only
      rw [hlk]
      exact JMap.lookupA_upsert_self m k _
    · have hqk : q.1 ≠ k := by
        intro hcontra
        refine hnd1 (List.mem_map.mpr ⟨(k, p), hq, ?_⟩)
        simpa using hcontra.symm
      rw [mergeKeyed, List.foldl_cons, ← mergeKeyed]
      refine ih _ hnd2 hq ?_
      rw [JMap.lookupA_upsert_ne m q.1 k _ (fun hc => hqk hc.symm)]
      exact hlk

/-- The sector loop of parseTimingData only rewrites the three sector
fields of the partial it folds over. -/
theorem timingSectorsFold_shape (l : List (String × Option String)) :
    ∀ acc : DriverTimingPartial, ∃ s1 s2 s3,
      l.foldl
        (fun acc p =>
          match p.2 with
          | none => acc
          | some v =>
            if p.1 = "0" then { acc with sector1 := some v }
            else if p.1 = "1" then { acc with sector2 := some v }
            else if p.1 = "2" then { acc with sector3 := some v }
            else acc)
        acc =
      { acc with sector1 := s1, sector2 := s2, sector3 := s3 } := by
  induction l with
  | nil =>
    intro acc
    exact ⟨acc.sector1, acc.sector2, acc.sector3, rfl⟩
  | cons p rest ih =>
    intro acc
    rw [List.foldl_cons]
    rcases p with ⟨k, ov⟩
    cases ov with
    | none => exact ih acc
    | some v =>
      dsimp only
      obtain ⟨s1, s2, s3, hs⟩ :=
        ih (if k = "0" then { acc with sector1 := some v }
          else if k = "1" then { acc with sector2 := some v }
          else if k = "2" then { acc with sector3 := some v }
          else acc)
      refine ⟨s1, s2, s3, ?_⟩
      rw [hs]
      split
      · rfl
      · split
        · rfl
        · split
          · rfl
          · rfl

/-- parseTimingEntry keeps every non-sector field equal to the raw entry
field, and with no raw sectors the sector fields stay absent. -/
theorem parseTimingEntry_fields (num : String) (e : RawTimingEntry) :
    (parseTimingEntry num e).position = e.Position
    ∧ (parseTimingEntry num e).gapToLeader = e.GapToLeader
    ∧ (parseTimingEntry num e).interval = e.IntervalValue
    ∧ (parseTimingEntry num e).lastLapTime = e.LastLapValue
    ∧ (parseTimingEntry num e).bestLapTime = e.BestLapValue
    ∧ (parseTimingEntry num e).inPit = e.InPit
    ∧ (parseTimingEntry num e).retired = e.Retired
    ∧ (parseTimingEntry num e).stopped = e.Stopped
    ∧ (e.Sectors = [] →
        (parseTimingEntry num e).sector1 = none
        ∧ (parseTimingEntry num e).sector2 = none
        ∧ (parseTimingEntry num e).sector3 = none) := by
  have hdef : parseTimingEntry num e =
      e.Sectors.foldl
        (fun acc p =>
          match p.2 with
          | none => acc
          | some v =>
            if p.1 = "0" then { acc with sector1 := some v }
            else if p.1 = "1" then { acc with sector2 := some v }
            else if p.1 = "2" then { acc with sector3 := some v }
            else acc)
        { driverNumber := some num
          position := e.Position
          gapToLeader := e.GapToLeader
          interval := e.IntervalValue
          lastLapTime := e.LastLapValue
          bestLapTime := e.BestLapValue
          inPit := e.InPit
          retired := e.Retired
          stopped := e.Stopped } := rfl
  obtain ⟨s1, s2, s3, hs⟩ := timingSectorsFold_shape e.Sectors
    { driverNumber := some num
      position := e.Position
      gapToLeader := e.GapToLeader
      interval := e.IntervalValue
      lastLapTime := e.LastLapValue
      bestLapTime := e.BestLapValue
      inPit := e.InPit
      retired := e.Retired
      stopped := e.Stopped }
  refine ⟨by rw [hdef, hs], by rw [hdef, hs], by rw [hdef, hs],
    by rw [hdef, hs], by rw [hdef, hs], by rw [hdef, hs], by rw [hdef, hs],
    by rw [hdef, hs], ?_⟩
  intro hsec
  rw [hdef, hsec]
  exact ⟨rfl, rfl, rfl⟩

/-- C6: diffs merge partially; a field absent from the payload of a later
diff keeps its previously set value, recursively in the nested per-driver
timing row, per-driver info record and weather record (for diffs whose
parsed key lists are duplicate-free, as JavaScript object keys are); a
TimingData diff moreover leaves the unrelated snapshot regions untouched. -/
theorem c6_partial_merge :
    (∀ (s : SessionState) (lines : JMap RawTimingEntry) (num : String)
        (e : RawTimingEntry) (row : DriverTiming) (ts : Option String),
        (lines.map Prod.fst).Nodup → (num, e) ∈ lines →
        s.timing.lookupA num = some row →
        ∃ row2,
          (applyMessage s "TimingData"
            (RawData.timingData { Lines := some lines }) ts).timing.lookupA
              num = some row2
          ∧ (e.Position = none → row2.position = row.position)
          ∧ (e.GapToLeader = none → row2.gapToLeader = row.gapToLeader)
          ∧ (e.IntervalValue = none → row2.interval = row.interval)
          ∧ (e.LastLapValue = none → row2.lastLapTime = row.lastLapTime)
          ∧ (e.BestLapValue = none → row2.bestLapTime = row.bestLapTime)
          ∧ (e.InPit = none → row2.inPit = row.inPit)
          ∧ (e.Retired = none → row2.retired = row.retired)
          ∧ (e.Stopped = none → row2.stopped = row.stopped)
          ∧ (e.Sectors = [] →
              row2.sector1 = row.sector1 ∧ row2.sector2 = row.sector2
                ∧ row2.sector3 = row.sector3)
          ∧ (applyMessage s "TimingData"
              (RawData.timingData { Lines := some lines }) ts).drivers =
              s.drivers
          ∧ (applyMessage s "TimingData"
              (RawData.timingData { Lines := some lines }) ts).weather =
              s.weather
          ∧ (applyMessage s "TimingData"
              (RawData.timingData { Lines := some lines }) ts).trackStatus =
              s.trackStatus)
    ∧ (∀ (s : SessionState) (raw : JMap RawDriverEntry) (num0 num : String)
        (e : RawDriverEntry) (d : DriverInfo) (ts : Option String),
        ((parseDriverList raw).map Prod.fst).Nodup → (num0, e) ∈ raw →
        e.RacingNumber = some num → s.drivers.lookupA num = some d →
        ∃ d2,
          (applyMessage s "DriverList"
            (RawData.driverList raw) ts).drivers.lookupA num = some d2
          ∧ (e.Tla = none → d2.abbreviation = d.abbreviation)
          ∧ (e.FirstName = none → d2.firstName = d.firstName)
          ∧ (e.LastName = none → d2.lastName = d.lastName)
          ∧ (e.TeamName = none → d2.teamName = d.teamName)
          ∧ (e.TeamColour = none → e.TeamName = none →
              d2.teamColor = d.teamColor)
          ∧ (e.CountryCode = none → d2.countryCode = d.countryCode))
    ∧ (∀ (s : SessionState) (raw : RawWeatherData) (w : WeatherData)
        (ts : Option String),
        s.weather = some w →
        ∃ w2,
          (applyMessage s "WeatherData"
            (RawData.weatherData raw) ts).weather = some w2
          ∧ (raw.AirTemp = none → w2.airTemp = w.airTemp)
          ∧ (raw.TrackTemp = none → w2.trackTemp = w.trackTemp)
          ∧ (raw.Humidity = none → w2.humidity = w.humidity)
          ∧ (raw.Rainfall = none → w2.rainfall = w.rainfall)
          ∧ (raw.WindSpeed = none → w2.windSpeed = w.windSpeed)
          ∧ (raw.WindDirection = none → w2.windDirection = w.windDirection)
          ∧ (raw.Pressure = none → w2.pressure = w.pressure)) := by
  refine ⟨?_, ?_, ?_⟩
  · intro s lines num e row ts hnd hmem hlk
    have happ : (applyMessage s "TimingData"
        (RawData.timingData { Lines := some lines }) ts).timing =
        mergeKeyed defaultDriverTiming mergeDriverTiming s.timing
          (lines.map (fun p => (p.1, parseTimingEntry p.1 p.2))) := by
      cases ts <;> rfl
    have hnd2 : ((lines.map
        (fun p => (p.1, parseTimingEntry p.1 p.2))).map Prod.fst).Nodup := by
      rw [List.map_map]
      exact hnd
    have hmem2 : (num, parseTimingEntry num e) ∈
        lines.map (fun p => (p.1, parseTimingEntry p.1 p.2)) :=
      List.mem_map.mpr ⟨(num, e), hmem, rfl⟩
    have hfind := mergeKeyed_lookupA_mem defaultDriverTiming
      mergeDriverTiming _ s.timing num (parseTimingEntry num e) row hnd2
      hmem2 hlk
    obtain ⟨hp, hg, hi2, hl, hb, hip, hr, hst, hsec⟩ :=
      parseTimingEntry_fields num e
    refine ⟨mergeDriverTiming row (parseTimingEntry num e),
      by rw [happ, hfind], ?_, ?_, ?_, ?_, ?_, ?_, ?_, ?_, ?_, ?_, ?_, ?_⟩
    · intro h
      show (parseTimingEntry num e).position.getD row.position = row.position
      rw [hp, h]
      rfl
    · intro h
      show (parseTimingEntry num e).gapToLeader.getD row.gapToLeader =
        row.gapToLeader
      rw [hg, h]
      rfl
    · intro h
      show (parseTimingEntry num e).interval.getD row.interval = row.interval
      rw [hi2, h]
      rfl
    · intro h
      show (parseTimingEntry num e).lastLapTime.getD row.lastLapTime =
        row.lastLapTime
      rw [hl, h]
      rfl
    · intro h
      show (parseTimingEntry num e).bestLapTime.getD row.bestLapTime =
        row.bestLapTime
      rw [hb, h]
      rfl
    · intro h
      show (parseTimingEntry num e).inPit.getD row.inPit = row.inPit
      rw [hip, h]
      rfl
    · intro h
      show (parseTimingEntry num e).retired.getD row.retired = row.retired
      rw [hr, h]
      rfl
    · intro h
      show (parseTimingEntry num e).stopped.getD row.stopped = row.stopped
      rw [hst, h]
      rfl
    · intro h
      obtain ⟨h1, h2, h3⟩ := hsec h
      refine ⟨?_, ?_, ?_⟩
      · show (parseTimingEntry num e).sector1.getD row.sector1 = row.sector1
        rw [h1]
        rfl
      · show (parseTimingEntry num e).sector2.getD row.sector2 = row.sector2
        rw [h2]
        rfl
      · show (parseTimingEntry num e).sector3.getD row.sector3 = row.sector3
        rw [h3]
        rfl
    · cases ts <;> rfl
    · cases ts <;> rfl
    · cases ts <;> rfl
  · intro s raw num0 num e d ts hnd hmem hrn hlk
    have hskip : ¬ (e.RacingNumber = none ∧ e.Tla = none) := by
      rw [hrn]
      simp
    have hPE : parseDriverEntry num0 e = some (num,
        { driverNumber := some num
          abbreviation := e.Tla
          firstName := e.FirstName
          lastName := e.LastName
          teamName := e.TeamName
          teamColor :=
            match e.TeamColour with
            | some c => some c
            | none =>
              match e.TeamName with
              | some tn => some (getTeamColor tn)
              | none => none
          countryCode := e.CountryCode }) := by
      rw [parseDriverEntry, if_neg hskip, hrn]
      rfl
    have happ : (applyMessage s "DriverList"
        (RawData.driverList raw) ts).drivers =
        mergeKeyed defaultDriverInfo mergeDriverInfo s.drivers
          (parseDriverList raw) := by
      cases ts <;> rfl
    have hmem2 : (num,
        ({ driverNumber := some num
           abbreviation := e.Tla
           firstName := e.FirstName
           lastName := e.LastName
           teamName := e.TeamName
           teamColor :=
             match e.TeamColour with
             | some c => some c
             | none =>
               match e.TeamName with
               | some tn => some (getTeamColor tn)
               | none => none
           countryCode := e.CountryCode } : DriverInfoPartial)) ∈
        parseDriverList raw := by
      rw [parseDriverList]
      exact List.mem_filterMap.mpr ⟨(num0, e), hmem, hPE⟩
    have hfind := mergeKeyed_lookupA_mem defaultDriverInfo mergeDriverInfo
      _ s.drivers num _ d hnd hmem2 hlk
    refine ⟨_, by rw [happ, hfind], ?_, ?_, ?_, ?_, ?_, ?_⟩
    · intro h
      show e.Tla.getD d.abbreviation = d.abbreviation
      rw [h]
      rfl
    · intro h
      show e.FirstName.getD d.firstName = d.firstName
      rw [h]
      rfl
    · intro h
      show e.LastName.getD d.lastName = d.lastName
      rw [h]
      rfl
    · intro h
      show e.TeamName.getD d.teamName = d.teamName
      rw [h]
      rfl
    · intro h1 h2
      show (match e.TeamColour with
        | some c => some c
        | none =>
          match e.TeamName with
          | some tn => some (getTeamColor tn)
          | none => none).getD d.teamColor = d.teamColor
      rw [h1, h2]
      rfl
    · intro h
      show e.CountryCode.getD d.countryCode = d.countryCode
      rw [h]
      rfl
  · intro s raw w ts hw
    have happ : (applyMessage s "WeatherData"
        (RawData.weatherData raw) ts).weather =
        some (mergeWeatherData (s.weather.getD defaultWeatherData)
          (parseWeatherData raw)) := by
      cases ts <;> rfl
    rw [hw] at happ
    refine ⟨_, happ, ?_, ?_, ?_, ?_, ?_, ?_, ?_⟩
    · intro h
      show raw.AirTemp.getD w.airTemp = w.airTemp
      rw [h]
      rfl
    · intro h
      show raw.TrackTemp.getD w.trackTemp = w.trackTemp
      rw [h]
      rfl
    · intro h
      show raw.Humidity.getD w.humidity = w.humidity
      rw [h]
      rfl
    · intro h
      simp [mergeWeatherData, parseWeatherData, h]
    · intro h
      show raw.WindSpeed.getD w.windSpeed = w.windSpeed
      rw [h]
      rfl
    · intro h
      show raw.WindDirection.getD w.windDirection = w.windDirection
      rw [h]
      rfl
    · intro h
      show raw.Pressure.getD w.pressure = w.pressure
      rw [h]
      rfl

/-- C6 witness: the in-pit-only diff of the unit test leaves driver 1 at
position 1. -/
theorem c6_partial_merge_witness :
    ((applyMessage demoTimingState "TimingData"
        (RawData.timingData { Lines := some [("1", demoInPitEntry)] })
        none).timing.lookupA "1").map DriverTiming.position = some 1 := by
  obtain ⟨row2, hfind, hpos, _⟩ := c6_partial_merge.1 demoTimingState
    [("1", demoInPitEntry)] "1" demoInPitEntry demoTimingRow none
    (by decide) (by decide) (by decide)
  rw [hfind]
  have hp := hpos rfl
  simp [hp, demoTimingRow, defaultDriverTiming]

/-- C3 counterexample: seeking while playing resumes playback inside the
same call, so the post-seek accumulator has already processed the entry at
the target index (lap 1) instead of holding the replayed prefix state, and
an update emission occurs within the seek call. -/
theorem c3_seek_playing_counterexample :
    demoPlayingSeek.1.acc ≠
      seekReplayState
        ((Controller.init.load demoTimeline2 none PMode.recorded).1.play).1
        demoTimeline2 "2000-01-01T00:00:00Z"
    ∧ demoPlayingSeek.2.any Emission.isUpdate = true := by
  constructor
  · decide
  · decide

/-- C3 amended: when the controller is not playing, seek(t) replays exactly
the entries before findIndex(t) onto a fresh copy of the initial state,
leaves the accumulator at that state and the index at findIndex(t), and its
whole trace is the single seek emission carrying that replayed state; when
it is playing, the seek emission still carries exactly the replayed prefix
state, but playback resumes within the same call, so further emissions (and
accumulator changes) follow it. -/
theorem c3_seek_amended (c : Controller) (tl : Timeline) (t : String)
    (htl : c.timeline = some tl) :
    (c.status ≠ PStatus.playing →
      (c.seek t).1.acc = seekReplayState c tl t
      ∧ (c.seek t).1.currentIndex = tl.findIndex t
      ∧ (c.seek t).2 =
          [Emission.seekEmit (seekReplayState c tl t)
            ((c.seek t).1.getPlaybackState)])
    ∧ (∃ ps, Emission.seekEmit (seekReplayState c tl t) ps ∈ (c.seek t).2)
    := by
  have hmin : min (tl.findIndex t) tl.entries.length = tl.findIndex t :=
    Nat.min_eq_left (Timeline.findIndex_le tl t)
  have hstopped : ∀ hns : ¬ (c.status = PStatus.playing),
      c.seek t =
        ({ c with
            acc := seekReplayState c tl t
            currentIndex := tl.findIndex t },
          [Emission.seekEmit (seekReplayState c tl t)
            ({ c with
                acc := seekReplayState c tl t
                currentIndex := tl.findIndex t } :
              Controller).getPlaybackState]) := by
    intro hns
    simp only [Controller.seek, htl, hmin, seekReplayState]
    rw [if_neg hns, if_neg hns]
    simp [htl]
  constructor
  · intro hns
    rw [hstopped hns]
    exact ⟨rfl, rfl, rfl⟩
  · by_cases hp : c.status = PStatus.playing
    · simp only [Controller.seek, htl, hmin, seekReplayState]
      rw [if_pos hp, if_pos hp]
      exact ⟨_, List.mem_append.mpr (Or.inl (List.mem_append.mpr (Or.inr
        (List.mem_singleton.mpr rfl))))⟩
    · rw [hstopped hp]
      exact ⟨_, List.mem_singleton.mpr rfl⟩

/-- C3 witness: seeking the loaded (stopped) two-entry demonstration
timeline to its second timestamp replays exactly the first entry; the
accumulator holds lap 1 and the seek trace is the single seek emission. -/
theorem c3_seek_amended_witness :
    (((Controller.init.load demoTimeline2 none PMode.recorded).1.seek
        "2025-01-01T00:00:01Z").1.acc =
      seekReplayState (Controller.init.load demoTimeline2 none
        PMode.recorded).1 demoTimeline2 "2025-01-01T00:00:01Z")
    ∧ ((Controller.init.load demoTimeline2 none PMode.recorded).1.seek
        "2025-01-01T00:00:01Z").2 =
      [Emission.seekEmit
        (seekReplayState (Controller.init.load demoTimeline2 none
          PMode.recorded).1 demoTimeline2 "2025-01-01T00:00:01Z")
        (((Controller.init.load demoTimeline2 none PMode.recorded).1.seek
          "2025-01-01T00:00:01Z").1.getPlaybackState)] := by
  have h := c3_seek_amended
    (Controller.init.load demoTimeline2 none PMode.recorded).1 demoTimeline2
    "2025-01-01T00:00:01Z" (by decide)
  obtain ⟨hacc, _, htrace⟩ := h.1 (by decide)
  exact ⟨hacc, htrace⟩

/-- Event extraction distributes over trace concatenation. -/
theorem emittedEvents_append (x y : List Emission) :
    emittedEvents (x ++ y) = emittedEvents x ++ emittedEvents y :=
  List.filterMap_append x y _

/-- Event extraction inverts the per-event wrapping of a trace. -/
theorem emittedEvents_map_event (l : List F1Event) :
    emittedEvents (l.map Emission.event) = l := by
  induction l with
  | nil => rfl
  | cons x xs ih =>
    rw [List.map_cons, emittedEvents, List.filterMap_cons]
    rw [emittedEvents] at ih
    simpa using ih

/-- The live pipeline run ends in the fold state and emits exactly the
detected events of each step, in order. -/
theorem SignalRPipeline.run_spec (ms : List Msg) :
    ∀ a : SessionState,
      (SignalRPipeline.run a ms).1 = runAcc a ms
      ∧ emittedEvents (SignalRPipeline.run a ms).2 = runEvents a ms := by
  induction ms with
  | nil => intro a; exact ⟨rfl, rfl⟩
  | cons m rest ih =>
    intro a
    constructor
    · exact (ih _).1
    · show emittedEvents ((SignalRPipeline.processMessage a m).2 ++
        (SignalRPipeline.run (SignalRPipeline.processMessage a m).1 rest).2) =
        _
      rw [emittedEvents_append, (ih _).2]
      show emittedEvents ((detectEvents a _).map Emission.event ++
        [Emission.updateMsg _ _ _]) ++ _ = _
      rw [emittedEvents_append, emittedEvents_map_event]
      show detectEvents a _ ++ [] ++ _ = _
      rw [List.append_nil]
      rfl

/-- The controller's per-entry emissions carry exactly the detected events. -/
theorem emittedEvents_processEntry (c : Controller) (e : Msg) :
    emittedEvents (c.processEntry e).2 =
      detectEvents c.acc (applyMessage c.acc e.topic e.data
        (some e.timestamp)) := by
  show emittedEvents (Emission.updateEntry _ _ _ _ ::
    (detectEvents c.acc _).map Emission.event) = _
  rw [emittedEvents, List.filterMap_cons]
  rw [← emittedEvents, emittedEvents_map_event]

/-- Writing a message list to a started recorder appends exactly one line
per message and leaves the stream open flag and header files unchanged. -/
theorem SessionRecorder.write_run (ms : List Msg) :
    ∀ r : SessionRecorder, r.streamOpen = true →
      (ms.foldl SessionRecorder.write r).files.liveLines =
        r.files.liveLines ++ ms.map (fun m =>
          { ts := m.timestamp, topic := m.topic, data := m.data })
      ∧ (ms.foldl SessionRecorder.write r).files.subscribe =
        r.files.subscribe
      ∧ (ms.foldl SessionRecorder.write r).files.metadata =
        r.files.metadata := by
  induction ms with
  | nil => intro r _; simp
  | cons m rest ih =>
    intro r hopen
    rw [List.foldl_cons]
    have hopen1 : (r.write m).streamOpen = true := by
      rw [SessionRecorder.write, if_pos hopen]
      exact hopen
    have hlines : (r.write m).files.liveLines = r.files.liveLines ++
        [{ ts := m.timestamp, topic := m.topic, data := m.data }] := by
      rw [SessionRecorder.write, if_pos hopen]
    have hsub : (r.write m).files.subscribe = r.files.subscribe := by
      rw [SessionRecorder.write, if_pos hopen]
    have hmeta : (r.write m).files.metadata = r.files.metadata := by
      rw [SessionRecorder.write, if_pos hopen]
    obtain ⟨h1, h2, h3⟩ := ih (r.write m) hopen1
    refine ⟨?_, by rw [h2, hsub], by rw [h3, hmeta]⟩
    rw [h1, hlines]
    simp

/-- scheduleNext on a playing controller that is not at the penultimate
entry: process the current entry, advance, arm the timer. -/
theorem scheduleNext_mid (c : Controller) (tl : Timeline) (e : Msg)
    (htl : c.timeline = some tl) (hs : c.status = PStatus.playing)
    (hget : tl.entries.get? c.currentIndex = some e)
    (hlt : c.currentIndex + 1 < tl.entries.length) :
    c.scheduleNext =
      ({ c with
          acc := (c.processEntry e).1
          currentIndex := c.currentIndex + 1
          timerArmed := true },
        (c.processEntry e).2) := by
  obtain ⟨ctl, cinit, cacc, cidx, cstat, csp, cmode, carm⟩ := c
  dsimp only at htl hs hget hlt ⊢
  subst htl
  subst hs
  rw [Controller.scheduleNext, scheduleNextAux]
  dsimp only
  rw [if_neg (by simp; omega :
    ¬ (PStatus.playing ≠ PStatus.playing ∨ tl.entries.length ≤ cidx))]
  rw [hget]
  dsimp only
  rw [if_pos hlt]

/-- scheduleNext on a playing controller at the final entry: process it,
advance past the end, then the tail call finalises with finished. -/
theorem scheduleNext_last (c : Controller) (tl : Timeline) (e : Msg)
    (htl : c.timeline = some tl) (hs : c.status = PStatus.playing)
    (hget : tl.entries.get? c.currentIndex = some e)
    (heq : c.currentIndex + 1 = tl.entries.length) :
    c.scheduleNext =
      ({ c with
          acc := (c.processEntry e).1
          currentIndex := c.currentIndex + 1
          status := PStatus.stopped },
        (c.processEntry e).2 ++
          [Emission.finished,
            Emission.stateChange
              ({ c with
                  acc := (c.processEntry e).1
                  currentIndex := c.currentIndex + 1
                  status := PStatus.stopped } :
                Controller).getPlaybackState]) := by
  obtain ⟨ctl, cinit, cacc, cidx, cstat, csp, cmode, carm⟩ := c
  dsimp only at htl hs hget heq ⊢
  subst htl
  subst hs
  rw [Controller.scheduleNext, scheduleNextAux]
  dsimp only
  rw [if_neg (by simp; omega :
    ¬ (PStatus.playing ≠ PStatus.playing ∨ tl.entries.length ≤ cidx))]
  rw [hget]
  dsimp only
  rw [if_neg (by omega : ¬ (cidx + 1 < tl.entries.length))]
  rw [scheduleNextAux]
  dsimp only
  rw [if_pos (Or.inr (by omega)), if_pos (by omega)]

/-- A drain on a controller without a pending timer does nothing. -/
theorem drainFuel_not_armed (n : Nat) (c : Controller)
    (h : c.timerArmed = false) : Controller.drainFuel n c = (c, []) := by
  cases n with
  | zero => rfl
  | succ k =>
    rw [Controller.drainFuel, if_neg]
    rw [h]
    simp

/-- Draining a playing controller with an armed timer processes the
remaining entries in order: the final accumulator is the fold of the
remaining suffix, the emitted events are exactly the detected events of
that suffix, and the controller ends stopped with no pending timer. -/
theorem drain_run (n : Nat) :
    ∀ (c : Controller) (tl : Timeline), c.timeline = some tl →
      c.status = PStatus.playing → c.timerArmed = true →
      c.currentIndex < tl.entries.length →
      tl.entries.length - c.currentIndex ≤ n →
      (Controller.drainFuel n c).1.acc =
        runAcc c.acc (tl.entries.drop c.currentIndex)
      ∧ emittedEvents (Controller.drainFuel n c).2 =
        runEvents c.acc (tl.entries.drop c.currentIndex)
      ∧ (Controller.drainFuel n c).1.status = PStatus.stopped
      ∧ (Controller.drainFuel n c).1.timerArmed = false := by
  induction n with
  | zero =>
    intro c tl _ _ _ hidx hn
    omega
  | succ k ih =>
    intro c tl htl hs harm hidx hn
    obtain ⟨e, hget⟩ : ∃ e, tl.entries.get? c.currentIndex = some e := by
      rw [List.get?_eq_getElem?]
      exact ⟨tl.entries[c.currentIndex], List.getElem?_eq_getElem hidx⟩
    have hdrop : tl.entries.drop c.currentIndex =
        e :: tl.entries.drop (c.currentIndex + 1) := by
      rw [List.drop_eq_getElem_cons hidx]
      have : tl.entries[c.currentIndex] = e := by
        have h2 := List.getElem?_eq_getElem hidx
        rw [List.get?_eq_getElem?] at hget
        rw [h2] at hget
        exact Option.some.inj hget
      rw [this]
    rw [Controller.drainFuel, if_pos harm]
    have htl2 : ({ c with timerArmed := false } : Controller).timeline =
      some tl := htl
    have hs2 : ({ c with timerArmed := false } : Controller).status =
      PStatus.playing := hs
    by_cases hcase : c.currentIndex + 1 < tl.entries.length
    · rw [scheduleNext_mid _ tl e htl2 hs2 hget hcase]
      dsimp only
      have hnext := ih
        { c with
            timerArmed := true
            acc := (Controller.processEntry { c with timerArmed := false } e).1
            currentIndex := c.currentIndex + 1 }
        tl htl (by exact hs) rfl hcase (by dsimp only; omega)
      dsimp only at hnext
      obtain ⟨ha, hev, hst, htm⟩ := hnext
      refine ⟨?_, ?_, hst, htm⟩
      · rw [ha, hdrop]
        rfl
      · rw [emittedEvents_append, hev, hdrop]
        rw [emittedEvents_processEntry]
        rfl
    · have heq : c.currentIndex + 1 = tl.entries.length := by omega
      have hfs : ∀ ps, emittedEvents
          [Emission.finished, Emission.stateChange ps] = ([] : List F1Event) :=
        fun ps => rfl
      have hnil : tl.entries.drop (c.currentIndex + 1) = [] := by
        rw [heq, List.drop_length]
      rw [scheduleNext_last _ tl e htl2 hs2 hget heq]
      dsimp only
      rw [drainFuel_not_armed k _ rfl]
      refine ⟨?_, ?_, rfl, rfl⟩
      · rw [hdrop, hnil]
        rfl
      · rw [List.append_nil, emittedEvents_append, emittedEvents_processEntry,
          hfs, List.append_nil, hdrop, hnil]
        simp [runEvents]

/-- A leading stateChange notification carries no event. -/
theorem emittedEvents_stateChange_cons (ps : PlaybackState)
    (l : List Emission) :
    emittedEvents (Emission.stateChange ps :: l) = emittedEvents l := rfl

/-- Playing a freshly loaded controller (stopped at index 0, no pending
timer) and then letting every timer fire processes the whole timeline
through the pipeline: the accumulator ends at the fold of all entries and
the event emissions are exactly the detected events, in order. -/
theorem play_drain_run (c0 : Controller) (tl : Timeline)
    (htl : c0.timeline = some tl) (hs : c0.status = PStatus.stopped)
    (hidx : c0.currentIndex = 0) (harm : c0.timerArmed = false) :
    (Controller.drainFuel tl.entries.length (c0.play).1).1.acc =
      runAcc c0.acc tl.entries
    ∧ emittedEvents ((c0.play).2 ++
        (Controller.drainFuel tl.entries.length (c0.play).1).2) =
      runEvents c0.acc tl.entries := by
  obtain ⟨ctl, cinit, cacc, cidx, cstat, csp, cmode, carm⟩ := c0
  dsimp only at htl hs hidx harm ⊢
  subst htl
  subst hs
  subst hidx
  subst harm
  by_cases hlen : tl.entries.length = 0
  · have hnil : tl.entries = [] := List.length_eq_zero.mp hlen
    rw [Controller.play]
    dsimp only
    rw [if_pos hlen]
    rw [drainFuel_not_armed _ _ rfl]
    rw [hnil]
    exact ⟨rfl, rfl⟩
  · obtain ⟨e0, rest, hsplit⟩ : ∃ e0 rest, tl.entries = e0 :: rest := by
      cases h : tl.entries with
      | nil => exact absurd (by rw [h]; rfl) hlen
      | cons a l => exact ⟨a, l, rfl⟩
    have hget : tl.entries.get? 0 = some e0 := by rw [hsplit]; rfl
    have hdrop1 : tl.entries.drop 1 = rest := by rw [hsplit]; rfl
    rw [Controller.play]
    dsimp only
    rw [if_neg hlen,
      if_neg (by simp : ¬ (PStatus.stopped = PStatus.playing))]
    dsimp only
    by_cases hone : (1 : Nat) < tl.entries.length
    · rw [scheduleNext_mid _ tl e0 rfl rfl hget hone]
      dsimp only
      have hrest := drain_run tl.entries.length
        { timeline := some tl, initialState := cinit
          acc := (Controller.processEntry
            { timeline := some tl, initialState := cinit, acc := cacc
              currentIndex := 0, status := PStatus.playing, speed := csp
              mode := cmode, timerArmed := false } e0).1
          currentIndex := 1, status := PStatus.playing, speed := csp
          mode := cmode, timerArmed := true }
        tl rfl rfl rfl (by dsimp only; omega) (by dsimp only; omega)
      dsimp only at hrest
      obtain ⟨ha, hev, _, _⟩ := hrest
      constructor
      · rw [ha, hdrop1]
        conv_rhs => rw [hsplit]
        rfl
      · rw [List.cons_append, emittedEvents_stateChange_cons,
          emittedEvents_append, hev, emittedEvents_processEntry, hdrop1]
        conv_rhs => rw [hsplit]
        rfl
    · have hrestnil : rest = [] := by
        cases rest with
        | nil => rfl
        | cons x xs =>
          rw [hsplit] at hone
          simp at hone
      have heq : (0 : Nat) + 1 = tl.entries.length := by
        rw [hsplit, hrestnil]
        rfl
      rw [scheduleNext_last _ tl e0 rfl rfl hget heq]
      dsimp only
      rw [drainFuel_not_armed _ _ rfl]
      constructor
      · conv_rhs => rw [hsplit, hrestnil]
        rfl
      · dsimp only
        rw [List.append_nil, emittedEvents_stateChange_cons,
          emittedEvents_append, emittedEvents_processEntry]
        have hfs : ∀ ps, emittedEvents
            [Emission.finished, Emission.stateChange ps] =
            ([] : List F1Event) := fun ps => rfl
        rw [hfs, List.append_nil]
        conv_rhs => rw [hsplit, hrestnil]
        simp [runEvents]

/-- Serialising a message to a JSONL line and parsing it back is the
identity, elementwise over a list. -/
theorem loadTimeline_map (ms : List Msg) :
    (ms.map (fun m =>
        ({ ts := m.timestamp, topic := m.topic, data := m.data } :
          RecLine))).map
      (fun l =>
        ({ timestamp := l.ts, topic := l.topic, data := l.data } : Msg)) =
      ms := by
  induction ms with
  | nil => rfl
  | cons m rest ih =>
    simp only [List.map_cons, ih]

/-- C1 counterexample: two live messages whose timestamps arrive out of
order. The live run applies them in arrival order (final flag green); the
replay re-sorts them by timestamp (final flag yellow), so the final
snapshots differ and the round trip is not an equivalence. -/
theorem c1_round_trip_counterexample :
    ¬ ((replayRun (recordSession demoMeta createEmptySessionState
          [demoLateYellow, demoEarlyGreen])).1 =
        (liveRun createEmptySessionState
          [demoLateYellow, demoEarlyGreen]).1
      ∧ Multiset.ofList (replayRun (recordSession demoMeta
          createEmptySessionState [demoLateYellow, demoEarlyGreen])).2 =
        Multiset.ofList (liveRun createEmptySessionState
          [demoLateYellow, demoEarlyGreen]).2) :=
  fun h => absurd h.1 (by decide)

/-- C1 (amended): for a live message sequence whose timestamps are already
non-decreasing, recording it and replaying the produced files through the
playback controller yields the same final snapshot as the live run and the
same multiset (indeed the same list) of emitted events. -/
theorem c1_round_trip_amended (meta : RecordingMetadata)
    (s0 : SessionState) (ms : List Msg)
    (hsorted : ms.Pairwise
      (fun a b => jsStrLe a.timestamp b.timestamp = true)) :
    (replayRun (recordSession meta s0 ms)).1 = (liveRun s0 ms).1
    ∧ Multiset.ofList (replayRun (recordSession meta s0 ms)).2 =
        Multiset.ofList (liveRun s0 ms).2 := by
  obtain ⟨hlines, hsub, _⟩ := SessionRecorder.write_run ms
    ((SessionRecorder.mk0 "recordings" meta.sessionKey meta.year).start
      meta s0) rfl
  have hload : loadTimeline (recordSession meta s0 ms) = ms := by
    show (ms.foldl SessionRecorder.write _).files.liveLines.map _ = ms
    rw [hlines]
    show ((ms.map _).map _ : List Msg) = ms
    exact loadTimeline_map ms
  have hinit : loadInitialState (recordSession meta s0 ms) = some s0 := by
    show (ms.foldl SessionRecorder.write _).files.subscribe = some s0
    rw [hsub]
    rfl
  have htl : Timeline.ofEntries (loadTimeline (recordSession meta s0 ms)) =
      ({ entries := ms } : Timeline) := by
    rw [Timeline.ofEntries, hload, ssort_of_sorted _ _ hsorted]
  have hpd := play_drain_run
    { timeline := some ({ entries := ms } : Timeline)
      initialState := some s0, acc := s0, currentIndex := 0
      status := PStatus.stopped, speed := 1, mode := PMode.recorded
      timerArmed := false }
    ({ entries := ms } : Timeline) rfl rfl rfl rfl
  have hlive := SignalRPipeline.run_spec ms s0
  simp only [replayRun, liveRun]
  rw [htl, hinit]
  exact ⟨hpd.1.trans hlive.1.symm,
    congrArg Multiset.ofList (hpd.2.trans hlive.2.symm)⟩

/-- C1 witness: the round-trip theorem at a concrete in-order
two-message session. -/
theorem c1_round_trip_amended_witness :
    (replayRun (recordSession demoMeta createEmptySessionState
        [demoEarlyGreen, demoLateYellow])).1 =
      (liveRun createEmptySessionState
        [demoEarlyGreen, demoLateYellow]).1
    ∧ Multiset.ofList (replayRun (recordSession demoMeta
        createEmptySessionState [demoEarlyGreen, demoLateYellow])).2 =
      Multiset.ofList (liveRun createEmptySessionState
        [demoEarlyGreen, demoLateYellow]).2 :=
  c1_round_trip_amended demoMeta createEmptySessionState
    [demoEarlyGreen, demoLateYellow] (by decide)
